import Mathlib

/-!
Verification development for the Kibo desktop-companion orchestration core.

The definitions below are a shallow embedding of the session-state store and
the handlers of src/hooks/useKibo.ts (together with the data model of
src/types.ts and the service layer's control-relevant behaviour).  State is
threaded explicitly: each handler is a function from a `World` (session state,
notification slot, pending focus timer) to a new `World` paired with the list
of observable events (capability calls, notifications, spoken utterances,
reactions) it emits.  Results of asynchronous AI capability calls are supplied
by oracle records; a fallible call's result is an `Option`, `none` standing
for a rejected promise.  Timestamps are milliseconds as `Nat`; `uuidv4` is
modelled as a deterministic draw `mkId` from a caller-supplied counter, with
freshness stated as an explicit hypothesis where uniqueness matters.
-/

namespace Kibo

/-- Role enum of src/types.ts. -/
inductive Role where
  | USER
  | MODEL
  | SYSTEM
deriving DecidableEq, Repr

/-- Mood enum of src/types.ts. -/
inductive Mood where
  | NEUTRAL
  | HAPPY
  | SAD
  | BUSY
  | ANGRY
  | PLAYFUL
deriving DecidableEq, Repr

/-- KiboStatus enum of src/types.ts. -/
inductive KiboStatus where
  | IDLE
  | LISTENING
  | THINKING
  | SPEAKING
deriving DecidableEq, Repr

/-- Reaction enum of src/types.ts. -/
inductive Reaction where
  | NONE
  | HEAD_TILT
  | SURPRISED
  | NOD
deriving DecidableEq, Repr

/-- AnimationPack enum of src/types.ts. -/
inductive AnimationPack where
  | DEFAULT
  | SUBTLE
deriving DecidableEq, Repr

/-- AvatarStyle enum of src/types.ts. -/
inductive AvatarStyle where
  | ABSTRACT
  | ANIME_GIRL
  | MUZAN
  | GOJO
  | GENERATED
deriving DecidableEq, Repr

/-- VoiceName union of src/types.ts. -/
inductive VoiceName where
  | Puck
  | Charon
  | Kore
  | Fenrir
  | Zephyr
deriving DecidableEq, Repr

/-- Language union of src/types.ts ('en-US' | 'es-ES' | 'ja-JP' | 'hi-IN'). -/
inductive Language where
  | enUS
  | esES
  | jaJP
  | hiIN
deriving DecidableEq, Repr

/-- A web-knowledge source citation (uri + title). -/
structure SourceRef where
  uri : String
  title : String
deriving DecidableEq, Repr

/-- TextPart / ImagePart union of src/types.ts. -/
inductive MessagePart where
  | text (t : String)
  | image (url : String) (mimeType : String)
deriving DecidableEq, Repr

/-- Message of src/types.ts. -/
structure Message where
  role : Role
  parts : List MessagePart
  id : String
  sources : Option (List SourceRef)
deriving DecidableEq, Repr

/-- Reminder of src/types.ts (`time` is a Unix timestamp in milliseconds). -/
structure Reminder where
  id : String
  task : String
  time : Nat
  completed : Bool
  completedAt : Option Nat
deriving DecidableEq, Repr

/-- LearnedFact of src/types.ts. -/
structure LearnedFact where
  id : String
  fact : String
deriving DecidableEq, Repr

/-- MoodEntry of src/types.ts. -/
structure MoodEntry where
  mood : Mood
  timestamp : Nat
deriving DecidableEq, Repr

/-- Notification kind of src/types.ts NotificationData. -/
inductive NotificationKind where
  | reminder
  | info
  | error
deriving DecidableEq, Repr

/-- NotificationData of src/types.ts. -/
structure NotificationData where
  message : String
  kind : NotificationKind
deriving DecidableEq, Repr

/-- KiboState of src/types.ts, as initialised by useKibo (the hook's initial
state omits `currentFestival`, so it is omitted here too). -/
structure KiboState where
  messages : List Message
  reminders : List Reminder
  mood : Mood
  status : KiboStatus
  isLoading : Bool
  isListening : Bool
  language : Language
  userPreferredLanguage : Language
  reaction : Reaction
  voice : VoiceName
  animationPack : AnimationPack
  avatarStyle : AvatarStyle
  generatedAvatarUrl : Option String
  currentCharacterName : Option String
  isProactiveMode : Bool
  learnedFacts : List LearnedFact
  moodHistory : List MoodEntry
  isFocusModeActive : Bool
  focusSessionEndTime : Option Nat
  focusSessionTask : Option String
  isKiboActive : Bool
  isFloatingMode : Bool
deriving DecidableEq, Repr

/-- avatarVoiceMap of src/types.ts. -/
def avatarVoiceMap : AvatarStyle → VoiceName
  | .ABSTRACT => .Puck
  | .ANIME_GIRL => .Kore
  | .MUZAN => .Fenrir
  | .GOJO => .Zephyr
  | .GENERATED => .Puck

/-- JavaScript `s.startsWith(p)`, computed structurally over the character
lists (the core String.startsWith does not reduce inside the kernel). -/
def jsStartsWith (s p : String) : Bool := p.toList.isPrefixOf s.toList

/-- JavaScript `s.toLowerCase()` (ASCII-faithful, as the compared keyword
phrases are ASCII). -/
def jsToLower (s : String) : String := String.mk (s.toList.map Char.toLower)

/-- JavaScript `s.toUpperCase()` (ASCII-faithful, as the preset keys are
ASCII). -/
def jsToUpper (s : String) : String := String.mk (s.toList.map Char.toUpper)

/-- JavaScript `s.trim()`: strip leading and trailing whitespace. -/
def jsTrim (s : String) : String :=
  String.mk (((s.toList.dropWhile Char.isWhitespace).reverse.dropWhile
    Char.isWhitespace).reverse)

/-- JavaScript `s.replace(/ /g, '_')`: every space becomes an underscore. -/
def replaceSpaces (s : String) : String :=
  String.mk (s.toList.map (fun c => if c = ' ' then '_' else c))

/-- Split a character list at the first occurrence of `sep`: the part before
and the part after, when `sep` occurs. -/
def findSplit (sep : List Char) : List Char → Option (List Char × List Char)
  | [] => none
  | c :: rest =>
      if sep.isPrefixOf (c :: rest) then some ([], (c :: rest).drop sep.length)
      else match findSplit sep rest with
        | some (pre, post) => some (c :: pre, post)
        | none => none

/-- JavaScript `s.split(sep)[1]`: the piece between the first and second
occurrence of the separator (used only under a startsWith guard, so the
undefined case of a missing separator is collapsed to the empty string). -/
def jsSplitSecond (sep s : String) : String :=
  match findSplit sep.toList s.toList with
  | none => ""
  | some (_, post) =>
      match findSplit sep.toList post with
      | none => String.mk post
      | some (pre2, _) => String.mk pre2

/-- The uuidv4 draw, modelled as a deterministic injective function of a
caller-supplied counter; freshness with respect to ids already in the state is
assumed explicitly where a claim needs it. -/
def mkId (n : Nat) : String := "id-" ++ toString n

/-- JavaScript `array.slice(-n)`: the last `n` elements (the whole list when
it is shorter). -/
def sliceLast (n : Nat) (l : List α) : List α := l.drop (l.length - n)

/-- The first index of `c` in `cs`, if any. -/
def firstIdx (c : Char) (cs : List Char) : Option Nat := cs.findIdx? (· = c)

/-- Effect of the regex replace `/\(.*\)/g` with the empty string:
the greedy dot-star makes the single match run from the first opening
parenthesis to the last closing parenthesis after it, so one removal is the
fixpoint (the dot-excludes-newline subtlety is not modelled; no character name
in the claims contains a newline). -/
def stripParenthetical (s : String) : String :=
  let cs := s.toList
  match firstIdx '(' cs, firstIdx ')' cs.reverse with
  | some p, some rq =>
      let q := cs.length - 1 - rq
      if p < q then String.mk (cs.take p ++ cs.drop (q + 1)) else s
  | _, _ => s

/-- Normalisation of a character name in handleCharacterChange:
`characterName.toUpperCase().replace(/\(.*\)/g, '').replace(/ /g, '_').trim()`. -/
def normalizeCharacterName (s : String) : String :=
  jsTrim (replaceSpaces (stripParenthetical (jsToUpper s)))

/-- The presetMap lookup table of handleCharacterChange. -/
def presetMap (k : String) : Option AvatarStyle :=
  if k = "KIBO" then some .ABSTRACT
  else if k = "KIKO" then some .ANIME_GIRL
  else if k = "ANIME_GIRL" then some .ANIME_GIRL
  else if k = "MUZAN" then some .MUZAN
  else if k = "GOJO" then some .GOJO
  else if k = "ABSTRACT" then some .ABSTRACT
  else none

/-- The presetNameMap of handleCharacterChange. -/
def presetNameMap : AvatarStyle → String
  | .ABSTRACT => "Kibo"
  | .ANIME_GIRL => "Kiko"
  | .MUZAN => "Muzan"
  | .GOJO => "Gojo"
  | .GENERATED => "Kibo"

/-- Membership of `[AvatarStyle.ANIME_GIRL, AvatarStyle.MUZAN, AvatarStyle.GOJO].includes(style)`. -/
def isAnimeStyle (st : AvatarStyle) : Bool :=
  st == .ANIME_GIRL || st == .MUZAN || st == .GOJO

/-- Test of the anchored URL regex of handleSendMessage,
`/^(https?:\/\/[^\s]+)/`: an http or https scheme prefix followed by at least
one non-whitespace character. -/
def urlTest (s : String) : Bool :=
  (jsStartsWith s "http://" && hasNonSpaceAt s 7)
  || (jsStartsWith s "https://" && hasNonSpaceAt s 8)
where
  hasNonSpaceAt (s : String) (i : Nat) : Bool :=
    match s.toList.drop i with
    | c :: _ => !c.isWhitespace
    | [] => false

/-- The fixed web-query keyword phrases of handleSendMessage. -/
def webKeywords : List String :=
  ["who is", "what is", "what are", "search for", "look up", "tell me about", "summarize"]

/-- The isWebQuery classifier of handleSendMessage: URL pattern, or the
lower-cased text starts with one of the fixed keyword phrases. -/
def isWebQuery (s : String) : Bool :=
  urlTest s || webKeywords.any (fun kw => jsStartsWith (jsToLower s) kw)

/-- AI and device capability calls observable at the service boundary
(src/services/geminiService.ts).  Each constructor records the arguments that
the claims talk about. -/
inductive CapCall where
  | detectMood (text : String)
  | optimizePrompt (goal : String)
  | getTextFromImage (prompt : String)
  | summarizeTextContent (prompt : String)
  | getWebKnowledge (prompt : String)
  | getConversationalResponse (history : List Message) (prompt : String)
  | generateCharacterAvatar (characterName : String)
  | getVoiceForCharacter (characterName : String)
  | textToSpeech (text : String) (mood : Mood) (voice : VoiceName)
  | generateFunFactOrJoke
  | getProactiveSuggestion
  | prioritizeTasksCall (ids : List String)
  | summarizeConversation
  | generateLearningReport
  | suggestSelfImprovement
deriving DecidableEq, Repr

/-- The observable events a handler emits, in order. -/
inductive Event where
  | capCall (c : CapCall)
  | notify (n : NotificationData)
  | spoke (text : String) (mood : Mood) (voice : VoiceName)
  | reacted (r : Reaction)
deriving DecidableEq, Repr

/-- The world the hook owns: the session state, the single active
notification slot, and whether a focus-session timeout is pending (carrying
the task its completion callback captured). -/
structure World where
  kibo : KiboState
  notif : Option NotificationData
  focusTimer : Option String
deriving DecidableEq, Repr

/-- An action directive returned by the conversational capability: the
`{name, args}` record of a Gemini function call.  Absent args are `none`;
the handlers test the remaining args for JavaScript truthiness. -/
structure FnCall where
  name : String
  characterName : Option String
  fact : Option String
  task : Option String
  delaySeconds : Option Nat
  durationMinutes : Option Nat
  appName : Option String
deriving DecidableEq, Repr

/-- A setReminder directive record. -/
def FnCall.setReminderCall (task : String) (delaySeconds : Nat) : FnCall :=
  ⟨"setReminder", none, none, some task, some delaySeconds, none, none⟩

/-- A startFocusSession directive record. -/
def FnCall.startFocusCall (task : String) (durationMinutes : Nat) : FnCall :=
  ⟨"startFocusSession", none, none, some task, none, some durationMinutes, none⟩

/-- A changeCharacter directive record. -/
def FnCall.changeCharacterCall (characterName : String) : FnCall :=
  ⟨"changeCharacter", some characterName, none, none, none, none, none⟩

/-- A extractFact directive record. -/
def FnCall.extractFactCall (fact : String) : FnCall :=
  ⟨"extractFact", none, some fact, none, none, none, none⟩

/-- A launchApplication directive record. -/
def FnCall.launchApplicationCall (appName : String) : FnCall :=
  ⟨"launchApplication", none, none, none, none, none, some appName⟩

/-- JavaScript truthiness of an optional string argument. -/
def truthyS : Option String → Option String
  | some s => if s = "" then none else some s
  | none => none

/-- JavaScript truthiness of an optional numeric argument. -/
def truthyN : Option Nat → Option Nat
  | some n => if n = 0 then none else some n
  | none => none

/-- Results the character-transform workflow's asynchronous calls resolve to.
`voiceCallResult = none` models the voice-inference generateContent call
rejecting (getVoiceForCharacter catches this itself and yields 'Puck');
`avatarResult = none` models generateCharacterAvatar rejecting;
`confirmationResult = none` models the in-character confirmation
getConversationalResponse call rejecting; `ttsOk` is whether textToSpeech
resolves inside speak. -/
structure CharOracle where
  avatarResult : Option String
  voiceCallResult : Option VoiceName
  confirmationResult : Option String
  ttsOk : Bool
deriving DecidableEq, Repr

/-- Results the dispatch pipeline's asynchronous calls resolve to.  detectMood
is total at the service boundary (it catches its own failures and falls back
to NEUTRAL), so its result is a plain Mood; each `none` models the
corresponding call rejecting. -/
structure Oracle where
  detectMoodResult : Mood
  optimizePromptResult : Option String
  textFromImageResult : Option String
  summarizeTextResult : Option String
  webKnowledgeResult : Option (String × List SourceRef)
  conversationalResult : Option (String × List FnCall)
  ttsOk : Bool
deriving DecidableEq, Repr

/-- The attached file of a dispatch, classified the way handleSendMessage
classifies `file.type`; the read content is carried by the value (the device
reads are out of scope and modelled as succeeding). -/
inductive FileKind where
  | image (base64 : String) (mimeType : String) (url : String)
  | textFile (content : String)
  | other
deriving DecidableEq, Repr

/-- A file handed to the dispatch pipeline. -/
structure AttachedFile where
  fname : String
  kind : FileKind
deriving DecidableEq, Repr

/-- Notification shown when textToSpeech rejects inside speak. -/
def ttsFailNotif : NotificationData :=
  ⟨"Sorry, I am unable to speak right now.", NotificationKind.error⟩

/-- setNotification: the slot is overwritten and the event recorded. -/
def notifyW (n : NotificationData) (w : World) : World × List Event :=
  ({ w with notif := some n }, [Event.notify n])

/-- The speak coordinator of useKibo: a no-op while the assistant is
disabled; otherwise it sets the mood, issues the text-to-speech capability
call with the voice its closure captured, and always ends with status IDLE
(the transient SPEAKING status inside the call is folded into its final
value, as nothing else runs in between in the sequential model); a rejected
call is caught and surfaces an error notification. -/
def speak (voiceCl : VoiceName) (ttsOk : Bool) (text : String) (m : Mood) (w : World) :
    World × List Event :=
  if !w.kibo.isKiboActive then (w, [])
  else
    let w1 : World := { w with kibo := { w.kibo with mood := m, status := KiboStatus.IDLE } }
    if ttsOk then
      (w1, [Event.capCall (CapCall.textToSpeech text m voiceCl), Event.spoke text m voiceCl])
    else
      ({ w1 with notif := some ttsFailNotif },
       [Event.capCall (CapCall.textToSpeech text m voiceCl), Event.notify ttsFailNotif])

/-- addMessage of useKibo: push a text part when the text is non-empty and an
image part when an image url is present, and append the message. -/
def addMessage (role : Role) (text : String) (imageUrl : Option String)
    (sources : Option (List SourceRef)) (id : String) (w : World) : World :=
  let parts : List MessagePart :=
    (if text = "" then [] else [MessagePart.text text])
      ++ (match imageUrl with
          | some u => [MessagePart.image u "image/jpeg"]
          | none => [])
  { w with kibo := { w.kibo with messages := w.kibo.messages ++ [⟨role, parts, id, sources⟩] } }

/-- triggerReaction of useKibo: a no-op while the assistant is disabled (the
delayed reset to NONE is a separate operation, `Op.reactionReset`). -/
def triggerReaction (r : Reaction) (w : World) : World × List Event :=
  if !w.kibo.isKiboActive then (w, [])
  else ({ w with kibo := { w.kibo with reaction := r } }, [Event.reacted r])

/-- The `isLoading=true, status=Thinking` prologue shared by the async handlers. -/
def setLoadingThinking (w : World) : World :=
  { w with kibo := { w.kibo with isLoading := true, status := KiboStatus.THINKING } }

/-- The `finally` epilogue shared by the async handlers:
`isLoading=false, status=Idle`. -/
def finallyReset (w : World) : World :=
  { w with kibo := { w.kibo with isLoading := false, status := KiboStatus.IDLE } }

/-- addReminder of useKibo: append a new incomplete reminder with a freshly
drawn id, notify, and speak a confirmation. -/
def addReminder (task : String) (time : Nat) (gen : Nat) (ttsOk : Bool)
    (voiceCl : VoiceName) (w : World) : World × List Event :=
  let r : Reminder := ⟨mkId gen, task, time, false, none⟩
  let w := { w with kibo := { w.kibo with reminders := w.kibo.reminders ++ [r] } }
  let p1 := notifyW ⟨"Ok, I'll remind you to \"" ++ task ++ "\".", NotificationKind.info⟩ w
  let p2 := speak voiceCl ttsOk ("Reminder set for, " ++ task) Mood.HAPPY p1.1
  (p2.1, p1.2 ++ p2.2)

/-- handleStartFocusSession of useKibo: set the three focus fields (end time
now + minutes), mood BUSY, status IDLE, confirm by message and speech, and
replace any pending focus timeout by a fresh one carrying the task. -/
def handleStartFocusSession (task : String) (durationMinutes now gen : Nat)
    (ttsOk : Bool) (voiceCl : VoiceName) (w : World) : World × List Event :=
  let endTime := now + durationMinutes * 60 * 1000
  let w := { w with kibo := { w.kibo with
      isFocusModeActive := true,
      focusSessionEndTime := some endTime,
      focusSessionTask := some task,
      mood := Mood.BUSY,
      status := KiboStatus.IDLE } }
  let confirmation :=
    "Okay, starting a " ++ toString durationMinutes ++ "-minute focus session on: "
      ++ task ++ ". Let's do this!"
  let w := addMessage Role.MODEL confirmation none none (mkId gen) w
  let p := speak voiceCl ttsOk confirmation Mood.BUSY w
  ({ p.1 with focusTimer := some task }, p.2)

/-- The focus-session timeout callback firing: clear the three focus fields,
notify completion and speak it.  A no-op when no timeout is pending (it was
cancelled or already fired). -/
def focusTimerFire (ttsOk : Bool) (w : World) : World × List Event :=
  match w.focusTimer with
  | none => (w, [])
  | some task =>
      let w := { w with
        focusTimer := none
        kibo := { w.kibo with
          isFocusModeActive := false
          focusSessionEndTime := none
          focusSessionTask := none } }
      let completionMsg :=
        "Great work! Your focus session on \"" ++ task ++ "\" is complete. Time for a short break?"
      let p1 := notifyW ⟨completionMsg, NotificationKind.info⟩ w
      let p2 := speak p1.1.kibo.voice ttsOk completionMsg Mood.HAPPY p1.1
      (p2.1, p1.2 ++ p2.2)

/-- handleToggleKiboActive of useKibo: flip isKiboActive, force
isFocusModeActive to false, and, when turning off, clear the pending timers
(the focus-session sub-state fields focusSessionEndTime and focusSessionTask
are left as they were; only the flag is cleared). -/
def handleToggleKiboActive (w : World) : World :=
  let isActive := !w.kibo.isKiboActive
  let w := { w with kibo := { w.kibo with isKiboActive := isActive, isFocusModeActive := false } }
  if isActive then w else { w with focusTimer := none }

/-- handleToggleFloatingMode of useKibo. -/
def handleToggleFloatingMode (w : World) : World :=
  { w with kibo := { w.kibo with isFloatingMode := !w.kibo.isFloatingMode } }

/-- handleToggleProactiveMode of useKibo. -/
def handleToggleProactiveMode (w : World) : World :=
  { w with kibo := { w.kibo with isProactiveMode := !w.kibo.isProactiveMode } }

/-- handleVoiceChange of useKibo. -/
def handleVoiceChange (v : VoiceName) (w : World) : World :=
  { w with kibo := { w.kibo with voice := v } }

/-- handleAnimationChange of useKibo. -/
def handleAnimationChange (p : AnimationPack) (w : World) : World :=
  { w with kibo := { w.kibo with animationPack := p } }

/-- handleToggleReminderComplete of useKibo: flip the completion of the
reminder with the given id and stamp or clear completedAt. -/
def handleToggleReminderComplete (id : String) (now : Nat) (w : World) : World :=
  { w with kibo := { w.kibo with reminders := w.kibo.reminders.map (fun r =>
      if r.id = id then
        { r with completed := !r.completed,
                 completedAt := if !r.completed then some now else none }
      else r) } }

/-- The apology of handleCharacterChange's catch block. -/
def transformErrMsg (characterName : String) : String :=
  "I tried my best, but I couldn't transform into " ++ characterName
    ++ ". Maybe try a different character?"

/-- The announcement handleCharacterChange makes before transforming. -/
def transformationMsg (characterName : String) : String :=
  "Alright, attempting to transform into " ++ characterName
    ++ ". This might take a moment..."

/-- The fixed confirmation instruction of handleCharacterChange. -/
def confirmTransformPrompt : String :=
  "Confirm your transformation into your new character form in a very brief, in-character message."

/-- The catch block of handleCharacterChange: apologise in the previous
persona's voice and reset status and loading, leaving everything else as it
was. -/
def charCatch (gen : Nat) (ttsOk : Bool) (voiceCl : VoiceName) (characterName : String)
    (w : World) : World × List Event :=
  let m := transformErrMsg characterName
  let w := addMessage Role.MODEL m none none (mkId gen) w
  let p := speak voiceCl ttsOk m Mood.SAD w
  ({ p.1 with kibo := { p.1.kibo with status := KiboStatus.IDLE, isLoading := false } }, p.2)

/-- The tail of handleCharacterChange after the persona is resolved: derive
the language override, request the in-character confirmation, and on success
commit the new persona, append and speak the confirmation; a rejected
confirmation call falls to the catch block. -/
def charFinish (gen : Nat) (co : CharOracle) (voiceCl : VoiceName) (characterName : String)
    (newStyle : AvatarStyle) (newVoice : VoiceName) (newAvatarUrl : Option String)
    (newCharName : Option String) (foundPreset : Bool) (w : World) : World × List Event :=
  let isAnimeCharacter := isAnimeStyle newStyle || !foundPreset
  let newLang := if isAnimeCharacter then Language.jaJP else w.kibo.userPreferredLanguage
  let e := Event.capCall (CapCall.getConversationalResponse [] confirmTransformPrompt)
  match co.confirmationResult with
  | none =>
      let p := charCatch (gen + 2) co.ttsOk voiceCl characterName w
      (p.1, [e] ++ p.2)
  | some confirmationText =>
      let w := { w with kibo := { w.kibo with
          avatarStyle := newStyle
          voice := newVoice
          generatedAvatarUrl := newAvatarUrl
          currentCharacterName := newCharName
          language := newLang
          isLoading := false
          status := KiboStatus.IDLE } }
      let w := addMessage Role.MODEL confirmationText none none (mkId (gen + 2)) w
      let p := speak voiceCl co.ttsOk confirmationText Mood.HAPPY w
      (p.1, [e] ++ p.2)

/-- handleCharacterChange of useKibo.  `voiceCl` is the voice the speak
closure captured when the handler was created (the voice in effect at
invocation).  A name normalising to a preset resolves from the fixed tables
with no resolution capability call; an unmatched name issues the
image-generation and voice-inference calls concurrently (the latter total,
falling back to Puck when its underlying call rejects). -/
def handleCharacterChange (gen : Nat) (co : CharOracle) (voiceCl : VoiceName)
    (characterName : String) (w : World) : World × List Event :=
  let w := setLoadingThinking w
  let tMsg := transformationMsg characterName
  let w := addMessage Role.MODEL tMsg none none (mkId gen) w
  let p0 := speak voiceCl co.ttsOk tMsg Mood.BUSY w
  let upperCaseName := normalizeCharacterName characterName
  match presetMap upperCaseName with
  | some st =>
      let p := charFinish gen co voiceCl characterName st (avatarVoiceMap st) none
        (some (presetNameMap st)) true p0.1
      (p.1, p0.2 ++ p.2)
  | none =>
      let eCalls := [Event.capCall (CapCall.generateCharacterAvatar characterName),
                     Event.capCall (CapCall.getVoiceForCharacter characterName)]
      match co.avatarResult with
      | none =>
          let p := charCatch (gen + 1) co.ttsOk voiceCl characterName p0.1
          (p.1, p0.2 ++ eCalls ++ p.2)
      | some avatarBase64 =>
          let voice := match co.voiceCallResult with
            | some v => v
            | none => VoiceName.Puck
          let p := charFinish gen co voiceCl characterName AvatarStyle.GENERATED voice
            (some avatarBase64) (some characterName) false p0.1
          (p.1, p0.2 ++ eCalls ++ p.2)

/-- Application of one action directive by handleSendMessage, with the
source's truthiness guards on the arguments; a directive with an unknown name
or a missing or falsy argument is skipped. -/
def applyCall (c : FnCall) (gen now : Nat) (co : CharOracle) (ttsOk : Bool)
    (voiceCl : VoiceName) (w : World) : World × List Event :=
  if c.name = "changeCharacter" then
    match truthyS c.characterName with
    | some cn => handleCharacterChange gen co voiceCl cn w
    | none => (w, [])
  else if c.name = "extractFact" then
    match truthyS c.fact with
    | some f =>
        let w := { w with kibo :=
          { w.kibo with learnedFacts := w.kibo.learnedFacts ++ [⟨mkId gen, f⟩] } }
        triggerReaction Reaction.NOD w
    | none => (w, [])
  else if c.name = "setReminder" then
    match truthyS c.task, truthyN c.delaySeconds with
    | some t, some d =>
        let p1 := addReminder t (now + d * 1000) gen ttsOk voiceCl w
        let p2 := triggerReaction Reaction.NOD p1.1
        (p2.1, p1.2 ++ p2.2)
    | _, _ => (w, [])
  else if c.name = "startFocusSession" then
    match truthyS c.task, truthyN c.durationMinutes with
    | some t, some d => handleStartFocusSession t d now gen ttsOk voiceCl w
    | _, _ => (w, [])
  else if c.name = "launchApplication" then
    match truthyS c.appName with
    | some app =>
        let p1 := notifyW ⟨"Launching " ++ app ++ "...", NotificationKind.info⟩ w
        let p2 := triggerReaction Reaction.NOD p1.1
        (p2.1, p1.2 ++ p2.2)
    | none => (w, [])
  else (w, [])

/-- Application of a list of directives in the order received; each directive
draws its ids from a disjoint block of the counter. -/
def applyCalls (cs : List FnCall) (gen now : Nat) (co : CharOracle) (ttsOk : Bool)
    (voiceCl : VoiceName) (w : World) : World × List Event :=
  match cs with
  | [] => (w, [])
  | c :: rest =>
      let p1 := applyCall c gen now co ttsOk voiceCl w
      let p2 := applyCalls rest (gen + 10) now co ttsOk voiceCl p1.1
      (p2.1, p1.2 ++ p2.2)

/-- The inputs one dispatch-pipeline invocation depends on: the text or the
chat-input fallback, the optional file, the clock, the id counter, and the
oracles for the AI calls (co serves any nested character transform). -/
structure DispatchArgs where
  text : Option String
  chatInputVal : String
  file : Option AttachedFile
  now : Nat
  gen : Nat
  o : Oracle
  co : CharOracle
deriving DecidableEq, Repr

/-- JavaScript `text || chatInput`: an absent or empty text argument falls
back to the chat input. -/
def messageTextOf (text : Option String) (chatInput : String) : String :=
  match text with
  | some t => if t = "" then chatInput else t
  | none => chatInput

/-- The reserved system-command marker of handleSendMessage. -/
def optimizeMarker : String := "OPTIMIZE_PROMPT::"

/-- The entry guard of handleSendMessage: at least a non-blank text or a file. -/
def dispatchGuard (a : DispatchArgs) : Bool :=
  !(jsTrim (messageTextOf a.text a.chatInputVal) = "" && a.file.isNone)

/-- The image data a dispatch extracts from an image file. -/
def fileImageData : Option AttachedFile → Option (String × String × String)
  | some ⟨_, FileKind.image b m u⟩ => some (b, m, u)
  | _ => none

/-- The text a dispatch extracts from a text file. -/
def fileTextContent : Option AttachedFile → Option String
  | some ⟨_, FileKind.textFile c⟩ => some c
  | _ => none

/-- The apology of handleSendMessage's catch block. -/
def dispatchErrMsg : String := "Oops, something went wrong. Please try again."

/-- The catch block of handleSendMessage: apologise, speak it sad, surface an
error notification, react surprised. -/
def dispatchCatch (gen : Nat) (ttsOk : Bool) (voiceCl : VoiceName) (w : World) :
    World × List Event :=
  let w := addMessage Role.MODEL dispatchErrMsg none none (mkId gen) w
  let p1 := speak voiceCl ttsOk dispatchErrMsg Mood.SAD w
  let p2 := notifyW ⟨"Failed to connect to AI service.", NotificationKind.error⟩ p1.1
  let p3 := triggerReaction Reaction.SURPRISED p2.1
  (p3.1, p1.2 ++ p2.2 ++ p3.2)

/-- The try block of handleSendMessage after mood detection: the reserved
command short-circuits; otherwise the input is routed to the visual,
summarisation, web-knowledge or conversational capability; any rejected call
falls to the catch block. -/
def dispatchBody (a : DispatchArgs) (mt : String) (voiceCl : VoiceName)
    (hist : List Message) (dm : Mood) (imgData : Option (String × String × String))
    (txtContent : Option String) (w : World) : World × List Event :=
  if jsStartsWith mt optimizeMarker then
    let goal := jsSplitSecond "::" mt
    let e := Event.capCall (CapCall.optimizePrompt goal)
    match a.o.optimizePromptResult with
    | some newPrompt =>
        let intro :=
          "Okay, I've analyzed your request. If I were to update my core programming to be \""
            ++ goal ++ "\", here is what my new system prompt would look like:"
        let w := addMessage Role.MODEL intro none none (mkId (a.gen + 1)) w
        let p := speak voiceCl a.o.ttsOk intro Mood.NEUTRAL w
        let w := addMessage Role.MODEL ("```\n" ++ newPrompt ++ "\n```") none none
          (mkId (a.gen + 2)) p.1
        (w, [e] ++ p.2)
    | none =>
        let p := dispatchCatch (a.gen + 3) a.o.ttsOk voiceCl w
        (p.1, [e] ++ p.2)
  else match imgData with
  | some _ =>
      let e := Event.capCall (CapCall.getTextFromImage mt)
      match a.o.textFromImageResult with
      | some t =>
          let w := addMessage Role.MODEL t none none (mkId (a.gen + 1)) w
          let p := speak voiceCl a.o.ttsOk t dm w
          (p.1, [e] ++ p.2)
      | none =>
          let p := dispatchCatch (a.gen + 3) a.o.ttsOk voiceCl w
          (p.1, [e] ++ p.2)
  | none => match txtContent with
    | some _ =>
        let prompt := if mt = "" then "Please summarize this document for me." else mt
        let e := Event.capCall (CapCall.summarizeTextContent prompt)
        match a.o.summarizeTextResult with
        | some t =>
            let w := addMessage Role.MODEL t none none (mkId (a.gen + 1)) w
            let p := speak voiceCl a.o.ttsOk t dm w
            (p.1, [e] ++ p.2)
        | none =>
            let p := dispatchCatch (a.gen + 3) a.o.ttsOk voiceCl w
            (p.1, [e] ++ p.2)
    | none =>
        if isWebQuery mt then
          let prompt := if urlTest mt then "Please summarize this webpage for me: " ++ mt else mt
          let e := Event.capCall (CapCall.getWebKnowledge prompt)
          match a.o.webKnowledgeResult with
          | some ts =>
              let w := addMessage Role.MODEL ts.1 none (some ts.2) (mkId (a.gen + 1)) w
              let p := speak voiceCl a.o.ttsOk ts.1 dm w
              (p.1, [e] ++ p.2)
          | none =>
              let p := dispatchCatch (a.gen + 3) a.o.ttsOk voiceCl w
              (p.1, [e] ++ p.2)
        else
          let e := Event.capCall (CapCall.getConversationalResponse hist mt)
          match a.o.conversationalResult with
          | some tf =>
              let pCalls := applyCalls tf.2 (a.gen + 1) a.now a.co a.o.ttsOk voiceCl w
              if tf.1 = "" then (pCalls.1, [e] ++ pCalls.2)
              else
                let w := addMessage Role.MODEL tf.1 none none
                  (mkId (a.gen + 1 + 10 * tf.2.length)) pCalls.1
                let p := speak voiceCl a.o.ttsOk tf.1 dm w
                (p.1, [e] ++ pCalls.2 ++ p.2)
          | none =>
              let p := dispatchCatch (a.gen + 3) a.o.ttsOk voiceCl w
              (p.1, [e] ++ p.2)

/-- The prologue of handleSendMessage before routing: attention reaction,
loading flags, the user message (suppressed for the reserved command), and
unconditional mood detection appending to moodHistory. -/
def dispatchPrelude (a : DispatchArgs) (mt : String) (w : World) : World × List Event :=
  let pR := triggerReaction Reaction.HEAD_TILT w
  let w := setLoadingThinking pR.1
  let imgData := fileImageData a.file
  let w :=
    if jsStartsWith mt optimizeMarker then w
    else
      let userMessage := match a.file with
        | some f => mt ++ " (attached file: " ++ f.fname ++ ")"
        | none => mt
      addMessage Role.USER userMessage (imgData.map (fun x => x.2.2)) none (mkId a.gen) w
  let dm := a.o.detectMoodResult
  let w := { w with kibo := { w.kibo with
      mood := dm
      moodHistory := w.kibo.moodHistory ++ [⟨dm, a.now⟩] } }
  (w, pR.2 ++ [Event.capCall (CapCall.detectMood mt)])

/-- handleSendMessage of useKibo: the message dispatch pipeline.  Empty input
with no file is a no-op.  Otherwise: reaction, loading prologue, file
classification, the user message is appended (unless the text carries the
reserved command marker), mood detection runs unconditionally and appends to
moodHistory, the body routes the input, and the finally clause resets
isLoading and status.  The conversation context is the last five messages of
the state the handler's closure captured, i.e. before the user message was
appended. -/
def handleSendMessage (a : DispatchArgs) (w : World) : World × List Event :=
  let mt := messageTextOf a.text a.chatInputVal
  if jsTrim mt = "" && a.file.isNone then (w, [])
  else
    let voiceCl := w.kibo.voice
    let hist := sliceLast 5 w.kibo.messages
    let pP := dispatchPrelude a mt w
    let p := dispatchBody a mt voiceCl hist a.o.detectMoodResult (fileImageData a.file)
      (fileTextContent a.file) pP.1
    (finallyReset p.1, pP.2 ++ p.2)

/-- The JavaScript Map built by handlePrioritizeTasks from the full reminder
list: later entries overwrite earlier ones, so a get returns the last
reminder bearing the id. -/
def mapGet (rs : List Reminder) (id : String) : Option Reminder :=
  rs.reverse.find? (fun r => r.id = id)

/-- handlePrioritizeTasks of useKibo: below two active reminders it only
notifies; otherwise it asks the task-prioritization capability for an id
ordering and rebuilds the list as the resolved ordering (ids looked up in the
map over ALL reminders, unresolved ids dropped) followed by the completed
reminders; a rejected call only notifies; either way the finally clause
resets loading and status. -/
def handlePrioritizeTasks (gen : Nat) (res : Option (List String)) (ttsOk : Bool)
    (w : World) : World × List Event :=
  let activeReminders := w.kibo.reminders.filter (fun r => !r.completed)
  if activeReminders.length < 2 then
    notifyW ⟨"Not enough tasks to prioritize.", NotificationKind.info⟩ w
  else
    let voiceCl := w.kibo.voice
    let rs := w.kibo.reminders
    let w := setLoadingThinking w
    let e := Event.capCall (CapCall.prioritizeTasksCall (activeReminders.map (·.id)))
    match res with
    | some orderedIds =>
        let orderedReminders := orderedIds.filterMap (mapGet rs)
        let completedReminders := rs.filter (fun r => r.completed)
        let w := { w with kibo :=
          { w.kibo with reminders := orderedReminders ++ completedReminders } }
        let infoMsg := "I've reprioritized your tasks for you."
        let w := addMessage Role.MODEL infoMsg none none (mkId gen) w
        let p := speak voiceCl ttsOk infoMsg Mood.NEUTRAL w
        (finallyReset p.1, [e] ++ p.2)
    | none =>
        let p := notifyW ⟨"Couldn't prioritize tasks right now.", NotificationKind.error⟩ w
        (finallyReset p.1, [e] ++ p.2)

/-- Whether the reminder poll fires for a reminder: incomplete and past due. -/
def dueIncomplete (now : Nat) (r : Reminder) : Bool :=
  !r.completed && decide (r.time ≤ now)

/-- The loop body of the reminder poll over the due incomplete reminders. -/
def pollLoop (voiceCl : VoiceName) (ttsOk : Bool) : List Reminder → World → World × List Event
  | [], w => (w, [])
  | r :: rest, w =>
      let p1 := notifyW ⟨"Reminder: " ++ r.task, NotificationKind.reminder⟩ w
      let p2 := speak voiceCl ttsOk ("Hey, just a reminder: " ++ r.task) Mood.BUSY p1.1
      let p3 := pollLoop voiceCl ttsOk rest p2.1
      (p3.1, p1.2 ++ p2.2 ++ p3.2)

/-- One tick of the reminder checker interval of useKibo (the interval only
runs while the assistant is active): every incomplete reminder whose due time
has passed is notified and spoken, and nothing is removed or completed. -/
def handleReminderPoll (now : Nat) (ttsOk : Bool) (w : World) : World × List Event :=
  if !w.kibo.isKiboActive then (w, [])
  else pollLoop w.kibo.voice ttsOk (w.kibo.reminders.filter (dueIncomplete now)) w

/-- The welcome effect of useKibo: on an active assistant with an empty
transcript, append and speak the greeting. -/
def handleWelcome (gen : Nat) (ttsOk : Bool) (w : World) : World × List Event :=
  if !w.kibo.isKiboActive || decide (0 < w.kibo.messages.length) then (w, [])
  else
    let welcomeMessage :=
      "Hello! I'm Kibo, your friendly desktop companion. How can I help you today?"
    let w := addMessage Role.MODEL welcomeMessage none none (mkId gen) w
    speak w.kibo.voice ttsOk welcomeMessage Mood.HAPPY w

/-- The idle timer firing (scheduled only while active): when idle and not
listening, request a fun fact or joke and present it; a rejected request is
an unhandled rejection that changes nothing further. -/
def handleIdleFire (gen : Nat) (res : Option String) (ttsOk : Bool) (w : World) :
    World × List Event :=
  if !w.kibo.isKiboActive then (w, [])
  else if w.kibo.status == KiboStatus.IDLE && !w.kibo.isListening then
    let e := Event.capCall CapCall.generateFunFactOrJoke
    match res with
    | some response =>
        let w := addMessage Role.MODEL response none none (mkId gen) w
        let p := speak w.kibo.voice ttsOk response Mood.PLAYFUL w
        (p.1, [e] ++ p.2)
    | none => (w, [e])
  else (w, [])

/-- One tick of the proactive-suggestion poller (the interval only runs while
proactive mode is on and the assistant active): skipped while busy; a failure
of capture or suggestion force-disables proactive mode and notifies; a
sentinel/empty suggestion (`some none`) is dropped silently; a suggestion is
appended and spoken. -/
def handleProactivePoll (gen : Nat) (res : Option (Option String)) (ttsOk : Bool)
    (w : World) : World × List Event :=
  if !(w.kibo.isProactiveMode && w.kibo.isKiboActive) then (w, [])
  else if w.kibo.isLoading || !(w.kibo.status == KiboStatus.IDLE) then (w, [])
  else
    let e := Event.capCall CapCall.getProactiveSuggestion
    match res with
    | none =>
        let w := { w with kibo := { w.kibo with isProactiveMode := false } }
        let p := notifyW
          ⟨"Proactive assistance disabled. Please grant screen permissions to use this feature.",
            NotificationKind.info⟩ w
        (p.1, [e] ++ p.2)
    | some none => (w, [e])
    | some (some suggestion) =>
        let w := addMessage Role.MODEL suggestion none none (mkId gen) w
        let p := speak w.kibo.voice ttsOk suggestion Mood.NEUTRAL w
        (p.1, [e] ++ p.2)

/-- The catch block of handleAnalyzeScreen. -/
def screenCatch (gen : Nat) (ttsOk : Bool) (voiceCl : VoiceName) (w : World) :
    World × List Event :=
  let errMsg := "I couldn't analyze the screen. Please make sure to grant permission."
  let w := addMessage Role.MODEL errMsg none none (mkId gen) w
  let p1 := speak voiceCl ttsOk errMsg Mood.SAD w
  let p2 := notifyW ⟨"Screen analysis failed.", NotificationKind.error⟩ p1.1
  let p3 := triggerReaction Reaction.SURPRISED p2.1
  (p3.1, p1.2 ++ p2.2 ++ p3.2)

/-- handleAnalyzeScreen of useKibo: capture the screen (`capture = none`
models a rejected capture) and describe it via the visual capability;
failures take the catch block; the finally clause always resets. -/
def handleAnalyzeScreen (gen : Nat) (capture : Option (String × String))
    (res : Option String) (ttsOk : Bool) (w : World) : World × List Event :=
  let voiceCl := w.kibo.voice
  let pR := triggerReaction Reaction.HEAD_TILT w
  let w := setLoadingThinking pR.1
  match capture with
  | none =>
      let p := screenCatch gen ttsOk voiceCl w
      (finallyReset p.1, pR.2 ++ p.2)
  | some _ =>
      let e := Event.capCall (CapCall.getTextFromImage analyzeScreenPrompt)
      match res with
      | some t =>
          let w := addMessage Role.MODEL t none none (mkId gen) w
          let p := speak voiceCl ttsOk t Mood.NEUTRAL w
          (finallyReset p.1, pR.2 ++ [e] ++ p.2)
      | none =>
          let p := screenCatch gen ttsOk voiceCl w
          (finallyReset p.1, pR.2 ++ [e] ++ p.2)
where
  -- The fixed screen-analysis instruction, abbreviated to its opening sentence;
  -- only its identity as the visual-capability prompt matters to the model.
  analyzeScreenPrompt : String :=
    "You are Kibo, my AI desktop assistant. I'm showing you a screenshot of my current screen."

/-- The display names of the languages table of src/types.ts. -/
def languageName : Language → String
  | .enUS => "English"
  | .esES => "Spanish"
  | .jaJP => "Japanese"
  | .hiIN => "Hindi"

/-- handleLanguageChange of useKibo: set both language fields, then request
an in-language confirmation; a rejected call falls back to a fixed sentence;
the finally clause resets. -/
def handleLanguageChange (lang : Language) (gen : Nat) (res : Option String)
    (ttsOk : Bool) (w : World) : World × List Event :=
  let voiceCl := w.kibo.voice
  let w := { w with kibo :=
    { w.kibo with language := lang, userPreferredLanguage := lang } }
  let w := setLoadingThinking w
  let e := Event.capCall (CapCall.getConversationalResponse [] "confirm language change")
  match res with
  | some responseText =>
      let w := addMessage Role.MODEL responseText none none (mkId gen) w
      let p := speak voiceCl ttsOk responseText Mood.HAPPY w
      (finallyReset p.1, [e] ++ p.2)
  | none =>
      let fallback := "Language set to " ++ languageName lang ++ "."
      let w := addMessage Role.MODEL fallback none none (mkId gen) w
      let p := speak voiceCl ttsOk fallback Mood.NEUTRAL w
      (finallyReset p.1, [e] ++ p.2)

/-- handleGenerateLearningReport of useKibo. -/
def handleGenerateLearningReport (gen : Nat) (res : Option String) (ttsOk : Bool)
    (w : World) : World × List Event :=
  let voiceCl := w.kibo.voice
  let w := setLoadingThinking w
  let e := Event.capCall CapCall.generateLearningReport
  match res with
  | some report =>
      let w := addMessage Role.MODEL report none none (mkId gen) w
      let p := speak voiceCl ttsOk report Mood.NEUTRAL w
      (finallyReset p.1, [e] ++ p.2)
  | none =>
      let errMsg := "I had trouble compiling my thoughts. Let's try that again later."
      let w := addMessage Role.MODEL errMsg none none (mkId gen) w
      let p := speak voiceCl ttsOk errMsg Mood.SAD w
      (finallyReset p.1, [e] ++ p.2)

/-- handleSuggestImprovement of useKibo. -/
def handleSuggestImprovement (gen : Nat) (res : Option String) (ttsOk : Bool)
    (w : World) : World × List Event :=
  let voiceCl := w.kibo.voice
  let w := setLoadingThinking w
  let e := Event.capCall CapCall.suggestSelfImprovement
  match res with
  | some suggestion =>
      let w := addMessage Role.MODEL suggestion none none (mkId gen) w
      let p := speak voiceCl ttsOk suggestion Mood.NEUTRAL w
      (finallyReset p.1, [e] ++ p.2)
  | none =>
      let errMsg :=
        "I was trying to think of how to improve, but I got a bit stuck. Let's talk about something else for now."
      let w := addMessage Role.MODEL errMsg none none (mkId gen) w
      let p := speak voiceCl ttsOk errMsg Mood.SAD w
      (finallyReset p.1, [e] ++ p.2)

/-- handleSummarizeChat of useKibo: below three messages only a notification;
otherwise summarise; a rejected call only notifies; the finally clause
resets. -/
def handleSummarizeChat (gen : Nat) (res : Option String) (ttsOk : Bool) (w : World) :
    World × List Event :=
  if w.kibo.messages.length < 3 then
    notifyW ⟨"There's not enough conversation to summarize yet.", NotificationKind.info⟩ w
  else
    let voiceCl := w.kibo.voice
    let w := setLoadingThinking w
    let e := Event.capCall CapCall.summarizeConversation
    match res with
    | some summary =>
        let w := addMessage Role.MODEL
          ("**Here's a summary of our chat:**\n\n" ++ summary) none none (mkId gen) w
        let p := speak voiceCl ttsOk "Here is a summary of our conversation." Mood.NEUTRAL w
        (finallyReset p.1, [e] ++ p.2)
    | none =>
        let p := notifyW ⟨"Couldn't summarize the chat right now.", NotificationKind.error⟩ w
        (finallyReset p.1, [e] ++ p.2)

/-- handleAnalyzeClipboard of useKibo: a rejected read notifies an error, an
empty clipboard an info; otherwise the built prompt is dispatched through
handleSendMessage. -/
def handleAnalyzeClipboard (readResult : Option String) (a : DispatchArgs) (w : World) :
    World × List Event :=
  match readResult with
  | none =>
      notifyW ⟨"Could not read from clipboard. Please grant permission.", NotificationKind.error⟩ w
  | some clipboardText =>
      if jsTrim clipboardText = "" then
        notifyW ⟨"Your clipboard is empty.", NotificationKind.info⟩ w
      else
        let prompt :=
          "Analyze and briefly summarize the following text from my clipboard:\n\n---\n\n"
            ++ clipboardText
        handleSendMessage { a with text := some prompt, file := none } w

/-- The effect of the speech-recognition listening flag changing (the
useEffect on isListening, active-gated). -/
def listeningChanged (b : Bool) (w : World) : World :=
  if !w.kibo.isKiboActive then w
  else { w with kibo := { w.kibo with
    isListening := b
    status := if b then KiboStatus.LISTENING else KiboStatus.IDLE } }

/-- The delayed reaction reset of triggerReaction. -/
def reactionReset (w : World) : World :=
  { w with kibo := { w.kibo with reaction := Reaction.NONE } }

/-- The state-update operations of the session: the exported handlers of
useKibo together with the timer and effect callbacks.  Each operation carries
the external inputs (clock, id counter, oracle results) its run consumed. -/
inductive Op where
  | sendMessage (a : DispatchArgs)
  | characterChange (gen : Nat) (co : CharOracle) (name : String)
  | startFocusSession (task : String) (durationMinutes now gen : Nat) (ttsOk : Bool)
  | focusFire (ttsOk : Bool)
  | toggleKiboActive
  | toggleFloatingMode
  | toggleProactiveMode
  | voiceChange (v : VoiceName)
  | animationChange (p : AnimationPack)
  | languageChange (lang : Language) (gen : Nat) (res : Option String) (ttsOk : Bool)
  | toggleReminderComplete (id : String) (now : Nat)
  | prioritizeTasks (gen : Nat) (res : Option (List String)) (ttsOk : Bool)
  | summarizeChat (gen : Nat) (res : Option String) (ttsOk : Bool)
  | generateLearningReport (gen : Nat) (res : Option String) (ttsOk : Bool)
  | suggestImprovement (gen : Nat) (res : Option String) (ttsOk : Bool)
  | analyzeScreen (gen : Nat) (capture : Option (String × String)) (res : Option String)
      (ttsOk : Bool)
  | analyzeClipboard (readResult : Option String) (a : DispatchArgs)
  | reminderPoll (now : Nat) (ttsOk : Bool)
  | idleFire (gen : Nat) (res : Option String) (ttsOk : Bool)
  | proactivePoll (gen : Nat) (res : Option (Option String)) (ttsOk : Bool)
  | welcome (gen : Nat) (ttsOk : Bool)
  | reactReset
  | listenChanged (b : Bool)
deriving DecidableEq, Repr

/-- One operation applied to the world, with its emitted events. -/
def stepOp : Op → World → World × List Event
  | .sendMessage a, w => handleSendMessage a w
  | .characterChange gen co name, w => handleCharacterChange gen co w.kibo.voice name w
  | .startFocusSession task d now gen tts, w =>
      handleStartFocusSession task d now gen tts w.kibo.voice w
  | .focusFire tts, w => focusTimerFire tts w
  | .toggleKiboActive, w => (handleToggleKiboActive w, [])
  | .toggleFloatingMode, w => (handleToggleFloatingMode w, [])
  | .toggleProactiveMode, w => (handleToggleProactiveMode w, [])
  | .voiceChange v, w => (handleVoiceChange v w, [])
  | .animationChange p, w => (handleAnimationChange p w, [])
  | .languageChange lang gen res tts, w => handleLanguageChange lang gen res tts w
  | .toggleReminderComplete id now, w => (handleToggleReminderComplete id now w, [])
  | .prioritizeTasks gen res tts, w => handlePrioritizeTasks gen res tts w
  | .summarizeChat gen res tts, w => handleSummarizeChat gen res tts w
  | .generateLearningReport gen res tts, w => handleGenerateLearningReport gen res tts w
  | .suggestImprovement gen res tts, w => handleSuggestImprovement gen res tts w
  | .analyzeScreen gen cap res tts, w => handleAnalyzeScreen gen cap res tts w
  | .analyzeClipboard rr a, w => handleAnalyzeClipboard rr a w
  | .reminderPoll now tts, w => handleReminderPoll now tts w
  | .idleFire gen res tts, w => handleIdleFire gen res tts w
  | .proactivePoll gen res tts, w => handleProactivePoll gen res tts w
  | .welcome gen tts, w => handleWelcome gen tts w
  | .reactReset, w => (reactionReset w, [])
  | .listenChanged b, w => (listeningChanged b w, [])

/-- A sequence of operations applied in order (events discarded). -/
def runOps (ops : List Op) (w : World) : World :=
  ops.foldl (fun w op => (stepOp op w).1) w

/-- The initial session state built by the useState initialiser of useKibo:
the persisted fields come from storage (parameters here), everything else has
the fixed defaults; in particular the three focus-session fields start
cleared. -/
def initialKibo (savedReminders : List Reminder) (savedVoice : VoiceName)
    (savedAnimationPack : AnimationPack) (savedAvatarStyle : AvatarStyle)
    (savedProactiveMode : Bool) (savedLearnedFacts : List LearnedFact)
    (savedMoodHistory : List MoodEntry) (savedIsKiboActive savedIsFloatingMode : Bool) :
    KiboState where
  messages := []
  reminders := savedReminders
  mood := Mood.NEUTRAL
  status := KiboStatus.IDLE
  isLoading := false
  isListening := false
  language := Language.enUS
  userPreferredLanguage := Language.enUS
  reaction := Reaction.NONE
  voice := savedVoice
  animationPack := savedAnimationPack
  avatarStyle := savedAvatarStyle
  generatedAvatarUrl := none
  currentCharacterName := none
  isProactiveMode := savedProactiveMode
  learnedFacts := savedLearnedFacts
  moodHistory := savedMoodHistory
  isFocusModeActive := false
  focusSessionEndTime := none
  focusSessionTask := none
  isKiboActive := savedIsKiboActive
  isFloatingMode := savedIsFloatingMode

/-- The initial world: initial state, empty notification slot, no pending
focus timeout. -/
def initialWorld (savedReminders : List Reminder) (savedVoice : VoiceName)
    (savedAnimationPack : AnimationPack) (savedAvatarStyle : AvatarStyle)
    (savedProactiveMode : Bool) (savedLearnedFacts : List LearnedFact)
    (savedMoodHistory : List MoodEntry) (savedIsKiboActive savedIsFloatingMode : Bool) :
    World :=
  ⟨initialKibo savedReminders savedVoice savedAnimationPack savedAvatarStyle
      savedProactiveMode savedLearnedFacts savedMoodHistory savedIsKiboActive
      savedIsFloatingMode,
    none, none⟩

/-- The initial world under the storage defaults (first run). -/
def defaultWorld : World :=
  initialWorld [] VoiceName.Puck AnimationPack.DEFAULT AvatarStyle.ABSTRACT false [] [] true false

/-- The focus-session coherence invariant claimed by the spec, in the
direction the code maintains: while the focus flag is set, an end time is
present. -/
def FocusInv (w : World) : Prop :=
  w.kibo.isFocusModeActive = true → w.kibo.focusSessionEndTime ≠ none

section PreservationLemmas

variable (w : World)

theorem notifyW_kibo (n : NotificationData) : (notifyW n w).1.kibo = w.kibo := rfl

theorem addMessage_mh (r : Role) (s : String) (u : Option String)
    (src : Option (List SourceRef)) (id : String) :
    (addMessage r s u src id w).kibo.moodHistory = w.kibo.moodHistory := rfl

theorem addMessage_fma (r : Role) (s : String) (u : Option String)
    (src : Option (List SourceRef)) (id : String) :
    (addMessage r s u src id w).kibo.isFocusModeActive = w.kibo.isFocusModeActive := rfl

theorem addMessage_fse (r : Role) (s : String) (u : Option String)
    (src : Option (List SourceRef)) (id : String) :
    (addMessage r s u src id w).kibo.focusSessionEndTime = w.kibo.focusSessionEndTime := rfl

theorem addMessage_reminders (r : Role) (s : String) (u : Option String)
    (src : Option (List SourceRef)) (id : String) :
    (addMessage r s u src id w).kibo.reminders = w.kibo.reminders := rfl

theorem addMessage_active (r : Role) (s : String) (u : Option String)
    (src : Option (List SourceRef)) (id : String) :
    (addMessage r s u src id w).kibo.isKiboActive = w.kibo.isKiboActive := rfl

theorem speak_mh (v : VoiceName) (t : Bool) (s : String) (m : Mood) :
    (speak v t s m w).1.kibo.moodHistory = w.kibo.moodHistory := by
  unfold speak
  split <;> [rfl; (split <;> rfl)]

theorem speak_fma (v : VoiceName) (t : Bool) (s : String) (m : Mood) :
    (speak v t s m w).1.kibo.isFocusModeActive = w.kibo.isFocusModeActive := by
  unfold speak
  split <;> [rfl; (split <;> rfl)]

theorem speak_fse (v : VoiceName) (t : Bool) (s : String) (m : Mood) :
    (speak v t s m w).1.kibo.focusSessionEndTime = w.kibo.focusSessionEndTime := by
  unfold speak
  split <;> [rfl; (split <;> rfl)]

theorem speak_reminders (v : VoiceName) (t : Bool) (s : String) (m : Mood) :
    (speak v t s m w).1.kibo.reminders = w.kibo.reminders := by
  unfold speak
  split <;> [rfl; (split <;> rfl)]

theorem speak_messages (v : VoiceName) (t : Bool) (s : String) (m : Mood) :
    (speak v t s m w).1.kibo.messages = w.kibo.messages := by
  unfold speak
  split <;> [rfl; (split <;> rfl)]

theorem speak_active (v : VoiceName) (t : Bool) (s : String) (m : Mood) :
    (speak v t s m w).1.kibo.isKiboActive = w.kibo.isKiboActive := by
  unfold speak
  split <;> [rfl; (split <;> rfl)]

theorem speak_focusTimer (v : VoiceName) (t : Bool) (s : String) (m : Mood) :
    (speak v t s m w).1.focusTimer = w.focusTimer := by
  unfold speak
  split <;> [rfl; (split <;> rfl)]

theorem triggerReaction_mh (r : Reaction) :
    (triggerReaction r w).1.kibo.moodHistory = w.kibo.moodHistory := by
  unfold triggerReaction
  split <;> rfl

theorem triggerReaction_fma (r : Reaction) :
    (triggerReaction r w).1.kibo.isFocusModeActive = w.kibo.isFocusModeActive := by
  unfold triggerReaction
  split <;> rfl

theorem triggerReaction_fse (r : Reaction) :
    (triggerReaction r w).1.kibo.focusSessionEndTime = w.kibo.focusSessionEndTime := by
  unfold triggerReaction
  split <;> rfl

theorem triggerReaction_reminders (r : Reaction) :
    (triggerReaction r w).1.kibo.reminders = w.kibo.reminders := by
  unfold triggerReaction
  split <;> rfl

theorem triggerReaction_messages (r : Reaction) :
    (triggerReaction r w).1.kibo.messages = w.kibo.messages := by
  unfold triggerReaction
  split <;> rfl

theorem triggerReaction_active (r : Reaction) :
    (triggerReaction r w).1.kibo.isKiboActive = w.kibo.isKiboActive := by
  unfold triggerReaction
  split <;> rfl

theorem addReminder_mh (task : String) (time gen : Nat) (t : Bool) (v : VoiceName) :
    (addReminder task time gen t v w).1.kibo.moodHistory = w.kibo.moodHistory := by
  unfold addReminder notifyW
  simp [speak_mh]

theorem addReminder_fma (task : String) (time gen : Nat) (t : Bool) (v : VoiceName) :
    (addReminder task time gen t v w).1.kibo.isFocusModeActive = w.kibo.isFocusModeActive := by
  unfold addReminder notifyW
  simp [speak_fma]

theorem addReminder_fse (task : String) (time gen : Nat) (t : Bool) (v : VoiceName) :
    (addReminder task time gen t v w).1.kibo.focusSessionEndTime = w.kibo.focusSessionEndTime := by
  unfold addReminder notifyW
  simp [speak_fse]

theorem charCatch_mh (g : Nat) (t : Bool) (v : VoiceName) (n : String) :
    (charCatch g t v n w).1.kibo.moodHistory = w.kibo.moodHistory := by
  unfold charCatch
  simp [speak_mh, addMessage]

theorem charCatch_fma (g : Nat) (t : Bool) (v : VoiceName) (n : String) :
    (charCatch g t v n w).1.kibo.isFocusModeActive = w.kibo.isFocusModeActive := by
  unfold charCatch
  simp [speak_fma, addMessage]

theorem charCatch_fse (g : Nat) (t : Bool) (v : VoiceName) (n : String) :
    (charCatch g t v n w).1.kibo.focusSessionEndTime = w.kibo.focusSessionEndTime := by
  unfold charCatch
  simp [speak_fse, addMessage]

theorem charFinish_mh (g : Nat) (co : CharOracle) (v : VoiceName) (n : String)
    (st : AvatarStyle) (nv : VoiceName) (au : Option String) (nc : Option String) (fp : Bool) :
    (charFinish g co v n st nv au nc fp w).1.kibo.moodHistory = w.kibo.moodHistory := by
  unfold charFinish
  split <;> simp [charCatch_mh, speak_mh, addMessage]

theorem charFinish_fma (g : Nat) (co : CharOracle) (v : VoiceName) (n : String)
    (st : AvatarStyle) (nv : VoiceName) (au : Option String) (nc : Option String) (fp : Bool) :
    (charFinish g co v n st nv au nc fp w).1.kibo.isFocusModeActive
      = w.kibo.isFocusModeActive := by
  unfold charFinish
  split <;> simp [charCatch_fma, speak_fma, addMessage]

theorem charFinish_fse (g : Nat) (co : CharOracle) (v : VoiceName) (n : String)
    (st : AvatarStyle) (nv : VoiceName) (au : Option String) (nc : Option String) (fp : Bool) :
    (charFinish g co v n st nv au nc fp w).1.kibo.focusSessionEndTime
      = w.kibo.focusSessionEndTime := by
  unfold charFinish
  split <;> simp [charCatch_fse, speak_fse, addMessage]

theorem handleCharacterChange_mh (g : Nat) (co : CharOracle) (v : VoiceName) (n : String) :
    (handleCharacterChange g co v n w).1.kibo.moodHistory = w.kibo.moodHistory := by
  unfold handleCharacterChange
  cases hp : presetMap (normalizeCharacterName n) <;>
    cases ha : co.avatarResult <;>
      simp [hp, ha, charFinish_mh, charCatch_mh, speak_mh, addMessage, setLoadingThinking]

theorem handleCharacterChange_fma (g : Nat) (co : CharOracle) (v : VoiceName) (n : String) :
    (handleCharacterChange g co v n w).1.kibo.isFocusModeActive
      = w.kibo.isFocusModeActive := by
  unfold handleCharacterChange
  cases hp : presetMap (normalizeCharacterName n) <;>
    cases ha : co.avatarResult <;>
      simp [hp, ha, charFinish_fma, charCatch_fma, speak_fma, addMessage, setLoadingThinking]

theorem handleCharacterChange_fse (g : Nat) (co : CharOracle) (v : VoiceName) (n : String) :
    (handleCharacterChange g co v n w).1.kibo.focusSessionEndTime
      = w.kibo.focusSessionEndTime := by
  unfold handleCharacterChange
  cases hp : presetMap (normalizeCharacterName n) <;>
    cases ha : co.avatarResult <;>
      simp [hp, ha, charFinish_fse, charCatch_fse, speak_fse, addMessage, setLoadingThinking]

theorem handleStartFocusSession_mh (task : String) (d now gen : Nat) (t : Bool)
    (v : VoiceName) :
    (handleStartFocusSession task d now gen t v w).1.kibo.moodHistory
      = w.kibo.moodHistory := by
  unfold handleStartFocusSession
  simp [speak_mh, addMessage]

theorem handleStartFocusSession_fma (task : String) (d now gen : Nat) (t : Bool)
    (v : VoiceName) :
    (handleStartFocusSession task d now gen t v w).1.kibo.isFocusModeActive = true := by
  unfold handleStartFocusSession
  simp [speak_fma, addMessage_fma]

theorem handleStartFocusSession_fse (task : String) (d now gen : Nat) (t : Bool)
    (v : VoiceName) :
    (handleStartFocusSession task d now gen t v w).1.kibo.focusSessionEndTime
      = some (now + d * 60 * 1000) := by
  unfold handleStartFocusSession
  simp [speak_fse, addMessage_fse]

theorem dispatchCatch_mh (gen : Nat) (t : Bool) (v : VoiceName) :
    (dispatchCatch gen t v w).1.kibo.moodHistory = w.kibo.moodHistory := by
  unfold dispatchCatch notifyW triggerReaction
  simp only [speak_mh, addMessage_mh]
  split <;> simp [speak_mh, addMessage_mh]

theorem dispatchCatch_fma (gen : Nat) (t : Bool) (v : VoiceName) :
    (dispatchCatch gen t v w).1.kibo.isFocusModeActive = w.kibo.isFocusModeActive := by
  unfold dispatchCatch notifyW triggerReaction
  simp only [speak_fma, addMessage_fma]
  split <;> simp [speak_fma, addMessage_fma]

theorem dispatchCatch_fse (gen : Nat) (t : Bool) (v : VoiceName) :
    (dispatchCatch gen t v w).1.kibo.focusSessionEndTime = w.kibo.focusSessionEndTime := by
  unfold dispatchCatch notifyW triggerReaction
  simp only [speak_fse, addMessage_fse]
  split <;> simp [speak_fse, addMessage_fse]

theorem applyCall_mh (c : FnCall) (gen now : Nat) (co : CharOracle) (t : Bool)
    (v : VoiceName) :
    (applyCall c gen now co t v w).1.kibo.moodHistory = w.kibo.moodHistory := by
  unfold applyCall
  repeat' split
  all_goals
    simp [handleCharacterChange_mh, handleStartFocusSession_mh, addReminder_mh,
      triggerReaction_mh, notifyW_kibo]

set_option maxHeartbeats 1000000 in
theorem applyCall_focus_cases (c : FnCall) (gen now : Nat) (co : CharOracle) (t : Bool)
    (v : VoiceName) :
    ((applyCall c gen now co t v w).1.kibo.isFocusModeActive = w.kibo.isFocusModeActive
      ∧ (applyCall c gen now co t v w).1.kibo.focusSessionEndTime
          = w.kibo.focusSessionEndTime)
    ∨ ((applyCall c gen now co t v w).1.kibo.isFocusModeActive = true
      ∧ ∃ n, (applyCall c gen now co t v w).1.kibo.focusSessionEndTime = some n) := by
  unfold applyCall
  repeat' split
  all_goals solve
    | (left
       constructor <;>
         simp [handleCharacterChange_fma, handleCharacterChange_fse,
           triggerReaction_fma, triggerReaction_fse,
           addReminder_fma, addReminder_fse, notifyW_kibo])
    | (right
       exact ⟨handleStartFocusSession_fma _ _ _ _ _ _ _, _,
         handleStartFocusSession_fse _ _ _ _ _ _ _⟩)

theorem applyCall_focusInv (c : FnCall) (gen now : Nat) (co : CharOracle) (t : Bool)
    (v : VoiceName) (h : FocusInv w) : FocusInv (applyCall c gen now co t v w).1 := by
  rcases applyCall_focus_cases w c gen now co t v with ⟨h1, h2⟩ | ⟨h1, n, h2⟩
  · intro hh
    rw [h2]
    exact h (h1 ▸ hh)
  · intro hh
    rw [h2]
    simp

theorem applyCalls_mh (cs : List FnCall) (gen now : Nat) (co : CharOracle) (t : Bool)
    (v : VoiceName) (w : World) :
    (applyCalls cs gen now co t v w).1.kibo.moodHistory = w.kibo.moodHistory := by
  induction cs generalizing gen w with
  | nil => rfl
  | cons c rest ih =>
      unfold applyCalls
      simp [ih, applyCall_mh]

theorem applyCalls_focusInv (cs : List FnCall) (gen now : Nat) (co : CharOracle) (t : Bool)
    (v : VoiceName) (w : World) (h : FocusInv w) :
    FocusInv (applyCalls cs gen now co t v w).1 := by
  induction cs generalizing gen w with
  | nil => exact h
  | cons c rest ih =>
      unfold applyCalls
      exact ih _ _ (applyCall_focusInv _ _ _ _ _ _ _ h)

theorem focusInv_of_eq {w w' : World}
    (h1 : w'.kibo.isFocusModeActive = w.kibo.isFocusModeActive)
    (h2 : w'.kibo.focusSessionEndTime = w.kibo.focusSessionEndTime)
    (h : FocusInv w) : FocusInv w' := fun hh => by
  rw [h2]
  exact h (h1 ▸ hh)

theorem dispatchBody_mh (a : DispatchArgs) (mt : String) (v : VoiceName)
    (hist : List Message) (dm : Mood) (img : Option (String × String × String))
    (txt : Option String) :
    (dispatchBody a mt v hist dm img txt w).1.kibo.moodHistory = w.kibo.moodHistory := by
  unfold dispatchBody
  repeat' split
  all_goals simp [dispatchCatch_mh, applyCalls_mh, speak_mh, addMessage_mh]

theorem dispatchBody_focusInv (a : DispatchArgs) (mt : String) (v : VoiceName)
    (hist : List Message) (dm : Mood) (img : Option (String × String × String))
    (txt : Option String) (h : FocusInv w) :
    FocusInv (dispatchBody a mt v hist dm img txt w).1 := by
  unfold dispatchBody
  repeat' split
  all_goals solve
    | exact h
    | (refine focusInv_of_eq ?_ ?_ h <;>
        simp [dispatchCatch_fma, dispatchCatch_fse, speak_fma, speak_fse,
          addMessage_fma, addMessage_fse])
    | (rename_i tf heq hne
       simp only []
       refine focusInv_of_eq ?_ ?_
         (applyCalls_focusInv tf.2 (a.gen + 1) a.now a.co a.o.ttsOk v w h) <;>
         simp [speak_fma, speak_fse, addMessage_fma, addMessage_fse])

theorem dispatchPrelude_mh (a : DispatchArgs) (mt : String) :
    (dispatchPrelude a mt w).1.kibo.moodHistory
      = w.kibo.moodHistory ++ [⟨a.o.detectMoodResult, a.now⟩] := by
  unfold dispatchPrelude
  split <;> simp [addMessage_mh, triggerReaction_mh, setLoadingThinking]

theorem dispatchPrelude_fma (a : DispatchArgs) (mt : String) :
    (dispatchPrelude a mt w).1.kibo.isFocusModeActive = w.kibo.isFocusModeActive := by
  unfold dispatchPrelude
  split <;> simp [addMessage_fma, triggerReaction_fma, setLoadingThinking]

theorem dispatchPrelude_fse (a : DispatchArgs) (mt : String) :
    (dispatchPrelude a mt w).1.kibo.focusSessionEndTime = w.kibo.focusSessionEndTime := by
  unfold dispatchPrelude
  split <;> simp [addMessage_fse, triggerReaction_fse, setLoadingThinking]

theorem handleSendMessage_noop (a : DispatchArgs) (hg : dispatchGuard a = false) :
    handleSendMessage a w = (w, []) := by
  unfold dispatchGuard at hg
  rw [Bool.not_eq_false'] at hg
  unfold handleSendMessage
  simp only [hg, if_true]

theorem handleSendMessage_mh (a : DispatchArgs) (hg : dispatchGuard a = true) :
    (handleSendMessage a w).1.kibo.moodHistory
      = w.kibo.moodHistory ++ [⟨a.o.detectMoodResult, a.now⟩] := by
  unfold dispatchGuard at hg
  rw [Bool.not_eq_true'] at hg
  unfold handleSendMessage
  simp only [hg, Bool.false_eq_true, if_false, finallyReset, dispatchBody_mh,
    dispatchPrelude_mh]

theorem handleSendMessage_focusInv (a : DispatchArgs) (h : FocusInv w) :
    FocusInv (handleSendMessage a w).1 := by
  unfold handleSendMessage
  simp only []
  split
  · exact h
  · refine focusInv_of_eq ?_ ?_
      (dispatchBody_focusInv
        (dispatchPrelude a (messageTextOf a.text a.chatInputVal) w).1 a
        (messageTextOf a.text a.chatInputVal) w.kibo.voice (sliceLast 5 w.kibo.messages)
        a.o.detectMoodResult (fileImageData a.file) (fileTextContent a.file)
        (focusInv_of_eq (dispatchPrelude_fma w a (messageTextOf a.text a.chatInputVal))
          (dispatchPrelude_fse w a (messageTextOf a.text a.chatInputVal)) h)) <;>
      simp [finallyReset]

theorem handlePrioritizeTasks_mh (gen : Nat) (res : Option (List String)) (t : Bool) :
    (handlePrioritizeTasks gen res t w).1.kibo.moodHistory = w.kibo.moodHistory := by
  unfold handlePrioritizeTasks
  simp only []
  repeat' split
  all_goals simp [notifyW_kibo, speak_mh, addMessage_mh, setLoadingThinking, finallyReset,
    notifyW]

theorem handlePrioritizeTasks_fma (gen : Nat) (res : Option (List String)) (t : Bool) :
    (handlePrioritizeTasks gen res t w).1.kibo.isFocusModeActive
      = w.kibo.isFocusModeActive := by
  unfold handlePrioritizeTasks
  simp only []
  repeat' split
  all_goals simp [notifyW_kibo, speak_fma, addMessage_fma, setLoadingThinking, finallyReset,
    notifyW]

theorem handlePrioritizeTasks_fse (gen : Nat) (res : Option (List String)) (t : Bool) :
    (handlePrioritizeTasks gen res t w).1.kibo.focusSessionEndTime
      = w.kibo.focusSessionEndTime := by
  unfold handlePrioritizeTasks
  simp only []
  repeat' split
  all_goals simp [notifyW_kibo, speak_fse, addMessage_fse, setLoadingThinking, finallyReset,
    notifyW]

theorem pollLoop_mh (v : VoiceName) (t : Bool) (rs : List Reminder) (w : World) :
    (pollLoop v t rs w).1.kibo.moodHistory = w.kibo.moodHistory := by
  induction rs generalizing w with
  | nil => rfl
  | cons r rest ih =>
      unfold pollLoop
      simp [ih, speak_mh, notifyW]

theorem pollLoop_fma (v : VoiceName) (t : Bool) (rs : List Reminder) (w : World) :
    (pollLoop v t rs w).1.kibo.isFocusModeActive = w.kibo.isFocusModeActive := by
  induction rs generalizing w with
  | nil => rfl
  | cons r rest ih =>
      unfold pollLoop
      simp [ih, speak_fma, notifyW]

theorem pollLoop_fse (v : VoiceName) (t : Bool) (rs : List Reminder) (w : World) :
    (pollLoop v t rs w).1.kibo.focusSessionEndTime = w.kibo.focusSessionEndTime := by
  induction rs generalizing w with
  | nil => rfl
  | cons r rest ih =>
      unfold pollLoop
      simp [ih, speak_fse, notifyW]

theorem handleReminderPoll_mh (now : Nat) (t : Bool) :
    (handleReminderPoll now t w).1.kibo.moodHistory = w.kibo.moodHistory := by
  unfold handleReminderPoll
  split <;> simp [pollLoop_mh]

theorem handleReminderPoll_fma (now : Nat) (t : Bool) :
    (handleReminderPoll now t w).1.kibo.isFocusModeActive = w.kibo.isFocusModeActive := by
  unfold handleReminderPoll
  split <;> simp [pollLoop_fma]

theorem handleReminderPoll_fse (now : Nat) (t : Bool) :
    (handleReminderPoll now t w).1.kibo.focusSessionEndTime = w.kibo.focusSessionEndTime := by
  unfold handleReminderPoll
  split <;> simp [pollLoop_fse]

theorem handleWelcome_mh (gen : Nat) (t : Bool) :
    (handleWelcome gen t w).1.kibo.moodHistory = w.kibo.moodHistory := by
  unfold handleWelcome
  split <;> simp [speak_mh, addMessage_mh]

theorem handleWelcome_fma (gen : Nat) (t : Bool) :
    (handleWelcome gen t w).1.kibo.isFocusModeActive = w.kibo.isFocusModeActive := by
  unfold handleWelcome
  split <;> simp [speak_fma, addMessage_fma]

theorem handleWelcome_fse (gen : Nat) (t : Bool) :
    (handleWelcome gen t w).1.kibo.focusSessionEndTime = w.kibo.focusSessionEndTime := by
  unfold handleWelcome
  split <;> simp [speak_fse, addMessage_fse]

theorem handleIdleFire_mh (gen : Nat) (res : Option String) (t : Bool) :
    (handleIdleFire gen res t w).1.kibo.moodHistory = w.kibo.moodHistory := by
  unfold handleIdleFire
  simp only []
  repeat' split
  all_goals simp [speak_mh, addMessage_mh]

theorem handleIdleFire_fma (gen : Nat) (res : Option String) (t : Bool) :
    (handleIdleFire gen res t w).1.kibo.isFocusModeActive = w.kibo.isFocusModeActive := by
  unfold handleIdleFire
  simp only []
  repeat' split
  all_goals simp [speak_fma, addMessage_fma]

theorem handleIdleFire_fse (gen : Nat) (res : Option String) (t : Bool) :
    (handleIdleFire gen res t w).1.kibo.focusSessionEndTime = w.kibo.focusSessionEndTime := by
  unfold handleIdleFire
  simp only []
  repeat' split
  all_goals simp [speak_fse, addMessage_fse]

theorem handleProactivePoll_mh (gen : Nat) (res : Option (Option String)) (t : Bool) :
    (handleProactivePoll gen res t w).1.kibo.moodHistory = w.kibo.moodHistory := by
  unfold handleProactivePoll
  simp only []
  repeat' split
  all_goals simp [speak_mh, addMessage_mh, notifyW]

theorem handleProactivePoll_fma (gen : Nat) (res : Option (Option String)) (t : Bool) :
    (handleProactivePoll gen res t w).1.kibo.isFocusModeActive = w.kibo.isFocusModeActive := by
  unfold handleProactivePoll
  simp only []
  repeat' split
  all_goals simp [speak_fma, addMessage_fma, notifyW]

theorem handleProactivePoll_fse (gen : Nat) (res : Option (Option String)) (t : Bool) :
    (handleProactivePoll gen res t w).1.kibo.focusSessionEndTime
      = w.kibo.focusSessionEndTime := by
  unfold handleProactivePoll
  simp only []
  repeat' split
  all_goals simp [speak_fse, addMessage_fse, notifyW]

theorem screenCatch_mh (gen : Nat) (t : Bool) (v : VoiceName) :
    (screenCatch gen t v w).1.kibo.moodHistory = w.kibo.moodHistory := by
  unfold screenCatch notifyW triggerReaction
  simp only [speak_mh, addMessage_mh]
  split <;> simp [speak_mh, addMessage_mh]

theorem screenCatch_fma (gen : Nat) (t : Bool) (v : VoiceName) :
    (screenCatch gen t v w).1.kibo.isFocusModeActive = w.kibo.isFocusModeActive := by
  unfold screenCatch notifyW triggerReaction
  simp only [speak_fma, addMessage_fma]
  split <;> simp [speak_fma, addMessage_fma]

theorem screenCatch_fse (gen : Nat) (t : Bool) (v : VoiceName) :
    (screenCatch gen t v w).1.kibo.focusSessionEndTime = w.kibo.focusSessionEndTime := by
  unfold screenCatch notifyW triggerReaction
  simp only [speak_fse, addMessage_fse]
  split <;> simp [speak_fse, addMessage_fse]

theorem handleAnalyzeScreen_mh (gen : Nat) (cap : Option (String × String))
    (res : Option String) (t : Bool) :
    (handleAnalyzeScreen gen cap res t w).1.kibo.moodHistory = w.kibo.moodHistory := by
  unfold handleAnalyzeScreen
  simp only []
  repeat' split
  all_goals simp [screenCatch_mh, speak_mh, addMessage_mh, triggerReaction_mh,
    setLoadingThinking, finallyReset]

theorem handleAnalyzeScreen_fma (gen : Nat) (cap : Option (String × String))
    (res : Option String) (t : Bool) :
    (handleAnalyzeScreen gen cap res t w).1.kibo.isFocusModeActive
      = w.kibo.isFocusModeActive := by
  unfold handleAnalyzeScreen
  simp only []
  repeat' split
  all_goals simp [screenCatch_fma, speak_fma, addMessage_fma, triggerReaction_fma,
    setLoadingThinking, finallyReset]

theorem handleAnalyzeScreen_fse (gen : Nat) (cap : Option (String × String))
    (res : Option String) (t : Bool) :
    (handleAnalyzeScreen gen cap res t w).1.kibo.focusSessionEndTime
      = w.kibo.focusSessionEndTime := by
  unfold handleAnalyzeScreen
  simp only []
  repeat' split
  all_goals simp [screenCatch_fse, speak_fse, addMessage_fse, triggerReaction_fse,
    setLoadingThinking, finallyReset]

theorem handleLanguageChange_mh (lang : Language) (gen : Nat) (res : Option String)
    (t : Bool) :
    (handleLanguageChange lang gen res t w).1.kibo.moodHistory = w.kibo.moodHistory := by
  unfold handleLanguageChange
  simp only []
  repeat' split
  all_goals simp [speak_mh, addMessage_mh, setLoadingThinking, finallyReset]

theorem handleLanguageChange_fma (lang : Language) (gen : Nat) (res : Option String)
    (t : Bool) :
    (handleLanguageChange lang gen res t w).1.kibo.isFocusModeActive
      = w.kibo.isFocusModeActive := by
  unfold handleLanguageChange
  simp only []
  repeat' split
  all_goals simp [speak_fma, addMessage_fma, setLoadingThinking, finallyReset]

theorem handleLanguageChange_fse (lang : Language) (gen : Nat) (res : Option String)
    (t : Bool) :
    (handleLanguageChange lang gen res t w).1.kibo.focusSessionEndTime
      = w.kibo.focusSessionEndTime := by
  unfold handleLanguageChange
  simp only []
  repeat' split
  all_goals simp [speak_fse, addMessage_fse, setLoadingThinking, finallyReset]

theorem handleGenerateLearningReport_mh (gen : Nat) (res : Option String) (t : Bool) :
    (handleGenerateLearningReport gen res t w).1.kibo.moodHistory = w.kibo.moodHistory := by
  unfold handleGenerateLearningReport
  simp only []
  repeat' split
  all_goals simp [speak_mh, addMessage_mh, setLoadingThinking, finallyReset]

theorem handleGenerateLearningReport_fma (gen : Nat) (res : Option String) (t : Bool) :
    (handleGenerateLearningReport gen res t w).1.kibo.isFocusModeActive
      = w.kibo.isFocusModeActive := by
  unfold handleGenerateLearningReport
  simp only []
  repeat' split
  all_goals simp [speak_fma, addMessage_fma, setLoadingThinking, finallyReset]

theorem handleGenerateLearningReport_fse (gen : Nat) (res : Option String) (t : Bool) :
    (handleGenerateLearningReport gen res t w).1.kibo.focusSessionEndTime
      = w.kibo.focusSessionEndTime := by
  unfold handleGenerateLearningReport
  simp only []
  repeat' split
  all_goals simp [speak_fse, addMessage_fse, setLoadingThinking, finallyReset]

theorem handleSuggestImprovement_mh (gen : Nat) (res : Option String) (t : Bool) :
    (handleSuggestImprovement gen res t w).1.kibo.moodHistory = w.kibo.moodHistory := by
  unfold handleSuggestImprovement
  simp only []
  repeat' split
  all_goals simp [speak_mh, addMessage_mh, setLoadingThinking, finallyReset]

theorem handleSuggestImprovement_fma (gen : Nat) (res : Option String) (t : Bool) :
    (handleSuggestImprovement gen res t w).1.kibo.isFocusModeActive
      = w.kibo.isFocusModeActive := by
  unfold handleSuggestImprovement
  simp only []
  repeat' split
  all_goals simp [speak_fma, addMessage_fma, setLoadingThinking, finallyReset]

theorem handleSuggestImprovement_fse (gen : Nat) (res : Option String) (t : Bool) :
    (handleSuggestImprovement gen res t w).1.kibo.focusSessionEndTime
      = w.kibo.focusSessionEndTime := by
  unfold handleSuggestImprovement
  simp only []
  repeat' split
  all_goals simp [speak_fse, addMessage_fse, setLoadingThinking, finallyReset]

theorem handleSummarizeChat_mh (gen : Nat) (res : Option String) (t : Bool) :
    (handleSummarizeChat gen res t w).1.kibo.moodHistory = w.kibo.moodHistory := by
  unfold handleSummarizeChat
  simp only []
  repeat' split
  all_goals simp [speak_mh, addMessage_mh, setLoadingThinking, finallyReset, notifyW]

theorem handleSummarizeChat_fma (gen : Nat) (res : Option String) (t : Bool) :
    (handleSummarizeChat gen res t w).1.kibo.isFocusModeActive
      = w.kibo.isFocusModeActive := by
  unfold handleSummarizeChat
  simp only []
  repeat' split
  all_goals simp [speak_fma, addMessage_fma, setLoadingThinking, finallyReset, notifyW]

theorem handleSummarizeChat_fse (gen : Nat) (res : Option String) (t : Bool) :
    (handleSummarizeChat gen res t w).1.kibo.focusSessionEndTime
      = w.kibo.focusSessionEndTime := by
  unfold handleSummarizeChat
  simp only []
  repeat' split
  all_goals simp [speak_fse, addMessage_fse, setLoadingThinking, finallyReset, notifyW]

theorem focusTimerFire_mh (t : Bool) :
    (focusTimerFire t w).1.kibo.moodHistory = w.kibo.moodHistory := by
  unfold focusTimerFire
  split <;> simp [speak_mh, notifyW]

theorem focusTimerFire_focusInv (t : Bool) (h : FocusInv w) :
    FocusInv (focusTimerFire t w).1 := by
  unfold focusTimerFire
  split
  · exact h
  · intro hh
    simp [speak_fma, notifyW] at hh

theorem handleToggleKiboActive_mh :
    (handleToggleKiboActive w).kibo.moodHistory = w.kibo.moodHistory := by
  unfold handleToggleKiboActive
  simp only []
  split <;> rfl

theorem handleToggleKiboActive_fma :
    (handleToggleKiboActive w).kibo.isFocusModeActive = false := by
  unfold handleToggleKiboActive
  simp only []
  split <;> rfl

theorem listeningChanged_mh (b : Bool) :
    (listeningChanged b w).kibo.moodHistory = w.kibo.moodHistory := by
  unfold listeningChanged
  split <;> rfl

theorem listeningChanged_fma (b : Bool) :
    (listeningChanged b w).kibo.isFocusModeActive = w.kibo.isFocusModeActive := by
  unfold listeningChanged
  split <;> rfl

theorem listeningChanged_fse (b : Bool) :
    (listeningChanged b w).kibo.focusSessionEndTime = w.kibo.focusSessionEndTime := by
  unfold listeningChanged
  split <;> rfl

/-- The moodHistory of `w'` extends that of `w`: nothing was removed or
reordered. -/
def moodAppends (w w' : World) : Prop :=
  ∃ t, w'.kibo.moodHistory = w.kibo.moodHistory ++ t

theorem moodAppends_of_eq {w w' : World}
    (h : w'.kibo.moodHistory = w.kibo.moodHistory) : moodAppends w w' :=
  ⟨[], by simp [h]⟩

theorem handleAnalyzeClipboard_mh (rr : Option String) (a : DispatchArgs) :
    moodAppends w (handleAnalyzeClipboard rr a w).1 := by
  unfold handleAnalyzeClipboard
  repeat' split
  · exact moodAppends_of_eq (by simp [notifyW])
  · exact moodAppends_of_eq (by simp [notifyW])
  · rename_i ct hct
    by_cases hg : dispatchGuard { a with
      text := some ("Analyze and briefly summarize the following text from my clipboard:\n\n---\n\n"
        ++ ct), file := none } = true
    · exact ⟨_, handleSendMessage_mh _ _ hg⟩
    · rw [handleSendMessage_noop _ _ (by revert hg; cases h : dispatchGuard _ <;> simp)]
      exact moodAppends_of_eq rfl

theorem handleAnalyzeClipboard_focusInv (rr : Option String) (a : DispatchArgs)
    (h : FocusInv w) : FocusInv (handleAnalyzeClipboard rr a w).1 := by
  unfold handleAnalyzeClipboard
  repeat' split
  · exact focusInv_of_eq (by simp [notifyW]) (by simp [notifyW]) h
  · exact focusInv_of_eq (by simp [notifyW]) (by simp [notifyW]) h
  · exact handleSendMessage_focusInv _ _ h

/-- Every operation only ever appends to moodHistory, never removes or
reorders entries. -/
theorem stepOp_moodAppends (op : Op) (w : World) : moodAppends w (stepOp op w).1 := by
  cases op with
  | sendMessage a =>
      by_cases hg : dispatchGuard a = true
      · exact ⟨_, handleSendMessage_mh _ _ hg⟩
      · rw [show stepOp (Op.sendMessage a) w = handleSendMessage a w from rfl,
          handleSendMessage_noop _ _ (by revert hg; cases h : dispatchGuard a <;> simp)]
        exact moodAppends_of_eq rfl
  | characterChange gen co name => exact moodAppends_of_eq (handleCharacterChange_mh _ _ _ _ _)
  | startFocusSession task d now gen tts =>
      exact moodAppends_of_eq (handleStartFocusSession_mh _ _ _ _ _ _ _)
  | focusFire tts => exact moodAppends_of_eq (focusTimerFire_mh _ _)
  | toggleKiboActive => exact moodAppends_of_eq (handleToggleKiboActive_mh _)
  | toggleFloatingMode => exact moodAppends_of_eq rfl
  | toggleProactiveMode => exact moodAppends_of_eq rfl
  | voiceChange v => exact moodAppends_of_eq rfl
  | animationChange p => exact moodAppends_of_eq rfl
  | languageChange lang gen res tts =>
      exact moodAppends_of_eq (handleLanguageChange_mh _ _ _ _ _)
  | toggleReminderComplete id now => exact moodAppends_of_eq rfl
  | prioritizeTasks gen res tts => exact moodAppends_of_eq (handlePrioritizeTasks_mh _ _ _ _)
  | summarizeChat gen res tts => exact moodAppends_of_eq (handleSummarizeChat_mh _ _ _ _)
  | generateLearningReport gen res tts =>
      exact moodAppends_of_eq (handleGenerateLearningReport_mh _ _ _ _)
  | suggestImprovement gen res tts =>
      exact moodAppends_of_eq (handleSuggestImprovement_mh _ _ _ _)
  | analyzeScreen gen cap res tts =>
      exact moodAppends_of_eq (handleAnalyzeScreen_mh _ _ _ _ _)
  | analyzeClipboard rr a => exact handleAnalyzeClipboard_mh _ _ _
  | reminderPoll now tts => exact moodAppends_of_eq (handleReminderPoll_mh _ _ _)
  | idleFire gen res tts => exact moodAppends_of_eq (handleIdleFire_mh _ _ _ _)
  | proactivePoll gen res tts => exact moodAppends_of_eq (handleProactivePoll_mh _ _ _ _)
  | welcome gen tts => exact moodAppends_of_eq (handleWelcome_mh _ _ _)
  | reactReset => exact moodAppends_of_eq rfl
  | listenChanged b => exact moodAppends_of_eq (listeningChanged_mh _ _)

/-- Every operation preserves the direction of the focus invariant that the
code maintains. -/
theorem stepOp_focusInv (op : Op) (w : World) (h : FocusInv w) :
    FocusInv (stepOp op w).1 := by
  cases op with
  | sendMessage a => exact handleSendMessage_focusInv _ _ h
  | characterChange gen co name =>
      exact focusInv_of_eq (handleCharacterChange_fma _ _ _ _ _)
        (handleCharacterChange_fse _ _ _ _ _) h
  | startFocusSession task d now gen tts =>
      intro _
      rw [show (stepOp (Op.startFocusSession task d now gen tts) w).1.kibo.focusSessionEndTime
        = some (now + d * 60 * 1000) from handleStartFocusSession_fse _ _ _ _ _ _ _]
      simp
  | focusFire tts => exact focusTimerFire_focusInv _ _ h
  | toggleKiboActive =>
      intro hh
      rw [show (stepOp Op.toggleKiboActive w).1.kibo.isFocusModeActive = false from
        handleToggleKiboActive_fma _] at hh
      cases hh
  | toggleFloatingMode => exact h
  | toggleProactiveMode => exact h
  | voiceChange v => exact h
  | animationChange p => exact h
  | languageChange lang gen res tts =>
      exact focusInv_of_eq (handleLanguageChange_fma _ _ _ _ _)
        (handleLanguageChange_fse _ _ _ _ _) h
  | toggleReminderComplete id now => exact h
  | prioritizeTasks gen res tts =>
      exact focusInv_of_eq (handlePrioritizeTasks_fma _ _ _ _)
        (handlePrioritizeTasks_fse _ _ _ _) h
  | summarizeChat gen res tts =>
      exact focusInv_of_eq (handleSummarizeChat_fma _ _ _ _)
        (handleSummarizeChat_fse _ _ _ _) h
  | generateLearningReport gen res tts =>
      exact focusInv_of_eq (handleGenerateLearningReport_fma _ _ _ _)
        (handleGenerateLearningReport_fse _ _ _ _) h
  | suggestImprovement gen res tts =>
      exact focusInv_of_eq (handleSuggestImprovement_fma _ _ _ _)
        (handleSuggestImprovement_fse _ _ _ _) h
  | analyzeScreen gen cap res tts =>
      exact focusInv_of_eq (handleAnalyzeScreen_fma _ _ _ _ _)
        (handleAnalyzeScreen_fse _ _ _ _ _) h
  | analyzeClipboard rr a => exact handleAnalyzeClipboard_focusInv _ _ _ h
  | reminderPoll now tts =>
      exact focusInv_of_eq (handleReminderPoll_fma _ _ _) (handleReminderPoll_fse _ _ _) h
  | idleFire gen res tts =>
      exact focusInv_of_eq (handleIdleFire_fma _ _ _ _) (handleIdleFire_fse _ _ _ _) h
  | proactivePoll gen res tts =>
      exact focusInv_of_eq (handleProactivePoll_fma _ _ _ _)
        (handleProactivePoll_fse _ _ _ _) h
  | welcome gen tts =>
      exact focusInv_of_eq (handleWelcome_fma _ _ _) (handleWelcome_fse _ _ _) h
  | reactReset => exact h
  | listenChanged b =>
      exact focusInv_of_eq (listeningChanged_fma _ _) (listeningChanged_fse _ _) h

/-- The focus invariant direction holds along every run. -/
theorem runOps_focusInv (ops : List Op) (w : World) (h : FocusInv w) :
    FocusInv (runOps ops w) := by
  induction ops generalizing w with
  | nil => exact h
  | cons op rest ih => exact ih _ (stepOp_focusInv op w h)

end PreservationLemmas

/-! Claim theorems. -/

/-- C1 counterexample: the claimed two-way invariant fails on the code.
Starting a 25-minute focus session from the default initial world and then
toggling the assistant off leaves `isFocusModeActive = false` while
`focusSessionEndTime` is still non-null, so the biconditional is violated. -/
theorem C1_counterexample :
    ¬ (((runOps [Op.startFocusSession "write the report" 25 0 0 true, Op.toggleKiboActive]
          defaultWorld).kibo.isFocusModeActive = true)
        ↔ ((runOps [Op.startFocusSession "write the report" 25 0 0 true, Op.toggleKiboActive]
          defaultWorld).kibo.focusSessionEndTime ≠ none)) := by
  decide

/-- C1 (amended): after every sequence of state-update operations from the
initial state, `isFocusModeActive = true` implies `focusSessionEndTime` is
non-null; the claimed converse fails (see the counterexample), because
deactivating the assistant clears only the flag. -/
theorem C1_focus_flag_implies_end_time (savedReminders : List Reminder)
    (savedVoice : VoiceName) (savedAnimationPack : AnimationPack)
    (savedAvatarStyle : AvatarStyle) (savedProactiveMode : Bool)
    (savedLearnedFacts : List LearnedFact) (savedMoodHistory : List MoodEntry)
    (savedIsKiboActive savedIsFloatingMode : Bool) (ops : List Op) :
    FocusInv (runOps ops (initialWorld savedReminders savedVoice savedAnimationPack
      savedAvatarStyle savedProactiveMode savedLearnedFacts savedMoodHistory
      savedIsKiboActive savedIsFloatingMode)) := by
  refine runOps_focusInv _ _ ?_
  intro hh
  simp [initialWorld, initialKibo] at hh

/-- C1 witness: the amended invariant applied after a concrete run that ends
inside an active focus session. -/
theorem C1_witness :
    (runOps [Op.startFocusSession "write the report" 25 0 0 true]
      defaultWorld).kibo.focusSessionEndTime ≠ none :=
  C1_focus_flag_implies_end_time [] VoiceName.Puck AnimationPack.DEFAULT
    AvatarStyle.ABSTRACT false [] [] true false
    [Op.startFocusSession "write the report" 25 0 0 true] (by decide)

/-- C2 counterexample: deactivating the assistant during an active focus
session does NOT null the focus-session fields: the end time and task keep
their values (only the flag is cleared and the timer cancelled). -/
theorem C2_counterexample :
    (runOps [Op.startFocusSession "write the report" 25 0 0 true, Op.toggleKiboActive]
        defaultWorld).kibo.focusSessionEndTime = some 1500000
    ∧ ¬ ((runOps [Op.startFocusSession "write the report" 25 0 0 true, Op.toggleKiboActive]
        defaultWorld).kibo.focusSessionEndTime = none)
    ∧ (runOps [Op.startFocusSession "write the report" 25 0 0 true, Op.toggleKiboActive]
        defaultWorld).kibo.focusSessionTask = some "write the report"
    ∧ (runOps [Op.startFocusSession "write the report" 25 0 0 true, Op.toggleKiboActive]
        defaultWorld).kibo.isFocusModeActive = false := by
  decide

/-- C2 (amended): deactivating the assistant sets `isKiboActive = false` and
`isFocusModeActive = false` and cancels the pending focus timer — so no
completion notification can fire afterwards — but `focusSessionEndTime` and
`focusSessionTask` are left at their previous values rather than nulled. -/
theorem C2_deactivation_behaviour (w : World) (h : w.kibo.isKiboActive = true) :
    (handleToggleKiboActive w).kibo.isKiboActive = false
    ∧ (handleToggleKiboActive w).kibo.isFocusModeActive = false
    ∧ (handleToggleKiboActive w).kibo.focusSessionEndTime = w.kibo.focusSessionEndTime
    ∧ (handleToggleKiboActive w).kibo.focusSessionTask = w.kibo.focusSessionTask
    ∧ (handleToggleKiboActive w).focusTimer = none
    ∧ ∀ t : Bool, focusTimerFire t (handleToggleKiboActive w)
        = (handleToggleKiboActive w, []) := by
  refine ⟨?_, ?_, ?_, ?_, ?_, ?_⟩ <;>
    solve
      | (unfold handleToggleKiboActive; simp [h])
      | (intro t; unfold handleToggleKiboActive focusTimerFire; simp [h])

/-- C2 witness: the amended statement at a concrete active world. -/
theorem C2_witness :
    (handleToggleKiboActive (runOps [Op.startFocusSession "write the report" 25 0 0 true]
        defaultWorld)).kibo.isKiboActive = false
    ∧ (handleToggleKiboActive (runOps [Op.startFocusSession "write the report" 25 0 0 true]
        defaultWorld)).kibo.isFocusModeActive = false
    ∧ (handleToggleKiboActive (runOps [Op.startFocusSession "write the report" 25 0 0 true]
        defaultWorld)).kibo.focusSessionEndTime
        = (runOps [Op.startFocusSession "write the report" 25 0 0 true]
            defaultWorld).kibo.focusSessionEndTime
    ∧ (handleToggleKiboActive (runOps [Op.startFocusSession "write the report" 25 0 0 true]
        defaultWorld)).kibo.focusSessionTask
        = (runOps [Op.startFocusSession "write the report" 25 0 0 true]
            defaultWorld).kibo.focusSessionTask
    ∧ (handleToggleKiboActive (runOps [Op.startFocusSession "write the report" 25 0 0 true]
        defaultWorld)).focusTimer = none
    ∧ ∀ t : Bool, focusTimerFire t (handleToggleKiboActive
        (runOps [Op.startFocusSession "write the report" 25 0 0 true] defaultWorld))
        = (handleToggleKiboActive (runOps [Op.startFocusSession "write the report" 25 0 0 true]
            defaultWorld), []) :=
  C2_deactivation_behaviour _ (by decide)

/-- The four content-routing capability calls of the dispatch pipeline
(visual description, summarisation, web knowledge, conversational). -/
def isRoutedCapCall : Event → Bool
  | .capCall (CapCall.getTextFromImage _) => true
  | .capCall (CapCall.summarizeTextContent _) => true
  | .capCall (CapCall.getWebKnowledge _) => true
  | .capCall (CapCall.getConversationalResponse _ _) => true
  | _ => false

theorem speak_trace_noRouted (v : VoiceName) (t : Bool) (s : String) (m : Mood) (w : World) :
    ((speak v t s m w).2).countP isRoutedCapCall = 0 := by
  unfold speak
  split <;> [rfl; (split <;> simp [isRoutedCapCall, List.countP_cons])]

theorem triggerReaction_trace_noRouted (r : Reaction) (w : World) :
    ((triggerReaction r w).2).countP isRoutedCapCall = 0 := by
  unfold triggerReaction
  split <;> simp [isRoutedCapCall, List.countP_cons]

theorem dispatchPrelude_messages_reserved (a : DispatchArgs) (mt : String) (w : World)
    (hstart : jsStartsWith mt optimizeMarker = true) :
    (dispatchPrelude a mt w).1.kibo.messages = w.kibo.messages := by
  unfold dispatchPrelude
  simp [hstart, triggerReaction_messages, setLoadingThinking]

theorem dispatchPrelude_trace_noRouted (a : DispatchArgs) (mt : String) (w : World) :
    ((dispatchPrelude a mt w).2).countP isRoutedCapCall = 0 := by
  unfold dispatchPrelude
  simp [List.countP_append, List.countP_cons, triggerReaction_trace_noRouted,
    isRoutedCapCall]

/-- C3 counterexample: a dispatch carrying the reserved persona-optimisation
command DOES run mood detection — an entry is appended to moodHistory and the
mood is changed — contradicting the claim that the reserved path skips mood
detection. -/
theorem C3_counterexample :
    ((handleSendMessage
        ⟨some "OPTIMIZE_PROMPT::be brief", "", none, 111, 0,
          ⟨Mood.HAPPY, some "NEW PROMPT", none, none, none, none, true⟩,
          ⟨none, none, none, true⟩⟩
        { defaultWorld with kibo := { defaultWorld.kibo with mood := Mood.SAD } }).1.kibo.moodHistory
      = [⟨Mood.HAPPY, 111⟩])
    ∧ ¬ ((handleSendMessage
        ⟨some "OPTIMIZE_PROMPT::be brief", "", none, 111, 0,
          ⟨Mood.HAPPY, some "NEW PROMPT", none, none, none, none, true⟩,
          ⟨none, none, none, true⟩⟩
        { defaultWorld with kibo := { defaultWorld.kibo with mood := Mood.SAD } }).1.kibo.mood
      = Mood.SAD) := by
  constructor
  · rfl
  · decide

/-- C3 (amended): a dispatch whose text starts with the reserved
OPTIMIZE_PROMPT marker is handled specially and terminates the pipeline
early — no content-routing capability call is issued and no User message is
appended, only two Model messages — but mood detection is NOT skipped: it
runs first and appends exactly one entry to moodHistory. -/
theorem C3_reserved_command_behaviour (a : DispatchArgs) (w : World) (np : String)
    (hstart : jsStartsWith (messageTextOf a.text a.chatInputVal) optimizeMarker = true)
    (hguard : dispatchGuard a = true)
    (hopt : a.o.optimizePromptResult = some np) :
    (handleSendMessage a w).1.kibo.moodHistory
        = w.kibo.moodHistory ++ [⟨a.o.detectMoodResult, a.now⟩]
    ∧ ((handleSendMessage a w).2).countP isRoutedCapCall = 0
    ∧ (handleSendMessage a w).1.kibo.messages.length = w.kibo.messages.length + 2
    ∧ ((handleSendMessage a w).1.kibo.messages.drop w.kibo.messages.length).all
        (fun m => m.role == Role.MODEL) = true := by
  refine ⟨handleSendMessage_mh _ _ hguard, ?_, ?_, ?_⟩
  all_goals
    (unfold dispatchGuard at hguard
     rw [Bool.not_eq_true'] at hguard
     unfold handleSendMessage
     simp only [hguard, Bool.false_eq_true, if_false]
     unfold dispatchBody
     simp only [hstart, if_true, hopt])
  · simp [List.countP_append, List.countP_cons, dispatchPrelude_trace_noRouted,
      speak_trace_noRouted, isRoutedCapCall]
  · simp [finallyReset, addMessage, speak_messages,
      dispatchPrelude_messages_reserved a _ w hstart]
  · simp [finallyReset, addMessage, speak_messages,
      dispatchPrelude_messages_reserved a _ w hstart, List.append_assoc, List.drop_left]

section CharacterLemmas

variable (w : World)

theorem speak_avatarStyle (v : VoiceName) (t : Bool) (s : String) (m : Mood) :
    (speak v t s m w).1.kibo.avatarStyle = w.kibo.avatarStyle := by
  unfold speak
  split <;> [rfl; (split <;> rfl)]

theorem speak_voice (v : VoiceName) (t : Bool) (s : String) (m : Mood) :
    (speak v t s m w).1.kibo.voice = w.kibo.voice := by
  unfold speak
  split <;> [rfl; (split <;> rfl)]

theorem speak_genUrl (v : VoiceName) (t : Bool) (s : String) (m : Mood) :
    (speak v t s m w).1.kibo.generatedAvatarUrl = w.kibo.generatedAvatarUrl := by
  unfold speak
  split <;> [rfl; (split <;> rfl)]

theorem speak_charName (v : VoiceName) (t : Bool) (s : String) (m : Mood) :
    (speak v t s m w).1.kibo.currentCharacterName = w.kibo.currentCharacterName := by
  unfold speak
  split <;> [rfl; (split <;> rfl)]

theorem speak_language (v : VoiceName) (t : Bool) (s : String) (m : Mood) :
    (speak v t s m w).1.kibo.language = w.kibo.language := by
  unfold speak
  split <;> [rfl; (split <;> rfl)]

theorem addMessage_avatarStyle (r : Role) (s : String) (u : Option String)
    (src : Option (List SourceRef)) (id : String) :
    (addMessage r s u src id w).kibo.avatarStyle = w.kibo.avatarStyle := rfl

theorem addMessage_voice (r : Role) (s : String) (u : Option String)
    (src : Option (List SourceRef)) (id : String) :
    (addMessage r s u src id w).kibo.voice = w.kibo.voice := rfl

theorem addMessage_genUrl (r : Role) (s : String) (u : Option String)
    (src : Option (List SourceRef)) (id : String) :
    (addMessage r s u src id w).kibo.generatedAvatarUrl = w.kibo.generatedAvatarUrl := rfl

theorem addMessage_charName (r : Role) (s : String) (u : Option String)
    (src : Option (List SourceRef)) (id : String) :
    (addMessage r s u src id w).kibo.currentCharacterName
      = w.kibo.currentCharacterName := rfl

theorem addMessage_language (r : Role) (s : String) (u : Option String)
    (src : Option (List SourceRef)) (id : String) :
    (addMessage r s u src id w).kibo.language = w.kibo.language := rfl

theorem addMessage_messages (r : Role) (s : String) (u : Option String)
    (src : Option (List SourceRef)) (id : String) :
    ∃ m, (addMessage r s u src id w).kibo.messages = w.kibo.messages ++ [m] :=
  ⟨_, rfl⟩

theorem charCatch_avatarStyle (g : Nat) (t : Bool) (v : VoiceName) (n : String) :
    (charCatch g t v n w).1.kibo.avatarStyle = w.kibo.avatarStyle := by
  unfold charCatch
  simp [speak_avatarStyle, addMessage_avatarStyle]

theorem charCatch_voice (g : Nat) (t : Bool) (v : VoiceName) (n : String) :
    (charCatch g t v n w).1.kibo.voice = w.kibo.voice := by
  unfold charCatch
  simp [speak_voice, addMessage_voice]

theorem charCatch_genUrl (g : Nat) (t : Bool) (v : VoiceName) (n : String) :
    (charCatch g t v n w).1.kibo.generatedAvatarUrl = w.kibo.generatedAvatarUrl := by
  unfold charCatch
  simp [speak_genUrl, addMessage_genUrl]

theorem charCatch_charName (g : Nat) (t : Bool) (v : VoiceName) (n : String) :
    (charCatch g t v n w).1.kibo.currentCharacterName = w.kibo.currentCharacterName := by
  unfold charCatch
  simp [speak_charName, addMessage_charName]

theorem charCatch_language (g : Nat) (t : Bool) (v : VoiceName) (n : String) :
    (charCatch g t v n w).1.kibo.language = w.kibo.language := by
  unfold charCatch
  simp [speak_language, addMessage_language]

theorem charCatch_isLoading (g : Nat) (t : Bool) (v : VoiceName) (n : String) :
    (charCatch g t v n w).1.kibo.isLoading = false := by
  unfold charCatch
  simp

theorem charCatch_status (g : Nat) (t : Bool) (v : VoiceName) (n : String) :
    (charCatch g t v n w).1.kibo.status = KiboStatus.IDLE := by
  unfold charCatch
  simp

theorem charCatch_messages_len (g : Nat) (t : Bool) (v : VoiceName) (n : String) :
    (charCatch g t v n w).1.kibo.messages.length = w.kibo.messages.length + 1 := by
  unfold charCatch
  simp [speak_messages, addMessage]

theorem charCatch_spoke (g : Nat) (v : VoiceName) (n : String)
    (hact : w.kibo.isKiboActive = true) :
    Event.spoke (transformErrMsg n) Mood.SAD v ∈ (charCatch g true v n w).2 := by
  unfold charCatch speak
  simp [addMessage_active, hact]

end CharacterLemmas

/-- Whether an event is any AI capability call at the service boundary. -/
def isCapCallEvt : Event → Bool
  | .capCall _ => true
  | _ => false

/-- Whether an event is the image-generation capability call. -/
def isImageGenCall : Event → Bool
  | .capCall (CapCall.generateCharacterAvatar _) => true
  | _ => false

/-- Whether an event is the voice-inference capability call. -/
def isVoiceInfCall : Event → Bool
  | .capCall (CapCall.getVoiceForCharacter _) => true
  | _ => false

theorem speak_count_resolution (v : VoiceName) (t : Bool) (s : String) (m : Mood)
    (w : World) :
    ((speak v t s m w).2).countP isImageGenCall = 0
    ∧ ((speak v t s m w).2).countP isVoiceInfCall = 0 := by
  unfold speak
  split <;> [exact ⟨rfl, rfl⟩;
    (split <;> exact ⟨by simp [List.countP_cons, isImageGenCall],
      by simp [List.countP_cons, isVoiceInfCall]⟩)]

theorem charCatch_count_resolution (g : Nat) (t : Bool) (v : VoiceName) (n : String)
    (w : World) :
    ((charCatch g t v n w).2).countP isImageGenCall = 0
    ∧ ((charCatch g t v n w).2).countP isVoiceInfCall = 0 := by
  unfold charCatch
  exact ⟨by simp [(speak_count_resolution _ _ _ _ _).1],
    by simp [(speak_count_resolution _ _ _ _ _).2]⟩

/-- C4 counterexample: transforming into the preset "MUZAN" does issue AI
capability calls (the in-character confirmation request, and speech
synthesis), so "without making any AI capability call" is false as stated;
what the preset path avoids is the image-generation and voice-inference pair. -/
theorem C4_counterexample :
    0 < ((handleCharacterChange 0 ⟨none, none, some "I am Muzan.", true⟩ VoiceName.Puck
      "MUZAN" defaultWorld).2).countP isCapCallEvt := by
  decide

/-- C4 (amended): a name normalising to a preset (here "MUZAN") adopts the
preset's fixed style, voice and display name, with no image-generation and no
voice-inference call (the conversational confirmation and speech-synthesis
calls still happen); an unmatched name (here "a wise old dragon") yields
avatarStyle `GENERATED` and issues exactly one image-generation and one
voice-inference call. -/
theorem C4_preset_vs_generated (w : World) (gen : Nat) (co : CharOracle)
    (c av : String) (hconf : co.confirmationResult = some c)
    (hav : co.avatarResult = some av) :
    (handleCharacterChange gen co w.kibo.voice "MUZAN" w).1.kibo.avatarStyle
        = AvatarStyle.MUZAN
    ∧ (handleCharacterChange gen co w.kibo.voice "MUZAN" w).1.kibo.voice
        = VoiceName.Fenrir
    ∧ (handleCharacterChange gen co w.kibo.voice "MUZAN" w).1.kibo.currentCharacterName
        = some "Muzan"
    ∧ (handleCharacterChange gen co w.kibo.voice "MUZAN" w).1.kibo.generatedAvatarUrl
        = none
    ∧ ((handleCharacterChange gen co w.kibo.voice "MUZAN" w).2).countP isImageGenCall = 0
    ∧ ((handleCharacterChange gen co w.kibo.voice "MUZAN" w).2).countP isVoiceInfCall = 0
    ∧ (handleCharacterChange gen co w.kibo.voice "a wise old dragon" w).1.kibo.avatarStyle
        = AvatarStyle.GENERATED
    ∧ (handleCharacterChange gen co w.kibo.voice
        "a wise old dragon" w).1.kibo.generatedAvatarUrl = some av
    ∧ ((handleCharacterChange gen co w.kibo.voice "a wise old dragon" w).2).countP
        isImageGenCall = 1
    ∧ ((handleCharacterChange gen co w.kibo.voice "a wise old dragon" w).2).countP
        isVoiceInfCall = 1 := by
  have hm : presetMap (normalizeCharacterName "MUZAN") = some AvatarStyle.MUZAN := by decide
  have hd : presetMap (normalizeCharacterName "a wise old dragon") = none := by decide
  unfold handleCharacterChange charFinish
  simp only [hm, hd, hconf, hav, avatarVoiceMap, presetNameMap]
  refine ⟨?_, ?_, ?_, ?_, ?_, ?_, ?_, ?_, ?_, ?_⟩ <;>
    simp [speak_avatarStyle, speak_voice, speak_charName, speak_genUrl,
      addMessage_avatarStyle, addMessage_voice, addMessage_charName, addMessage_genUrl,
      setLoadingThinking, addMessage, List.countP_append, List.countP_cons,
      (speak_count_resolution _ _ _ _ _).1, (speak_count_resolution _ _ _ _ _).2,
      isImageGenCall, isVoiceInfCall]

/-- C4 witness: the amended statement at a concrete oracle and world. -/
theorem C4_witness :
    (handleCharacterChange 3 ⟨some "IMGDATA", some VoiceName.Charon, some "Done.", true⟩
        defaultWorld.kibo.voice "MUZAN" defaultWorld).1.kibo.avatarStyle
        = AvatarStyle.MUZAN
    ∧ (handleCharacterChange 3 ⟨some "IMGDATA", some VoiceName.Charon, some "Done.", true⟩
        defaultWorld.kibo.voice "MUZAN" defaultWorld).1.kibo.voice = VoiceName.Fenrir
    ∧ (handleCharacterChange 3 ⟨some "IMGDATA", some VoiceName.Charon, some "Done.", true⟩
        defaultWorld.kibo.voice "MUZAN" defaultWorld).1.kibo.currentCharacterName
        = some "Muzan"
    ∧ (handleCharacterChange 3 ⟨some "IMGDATA", some VoiceName.Charon, some "Done.", true⟩
        defaultWorld.kibo.voice "MUZAN" defaultWorld).1.kibo.generatedAvatarUrl = none
    ∧ ((handleCharacterChange 3 ⟨some "IMGDATA", some VoiceName.Charon, some "Done.", true⟩
        defaultWorld.kibo.voice "MUZAN" defaultWorld).2).countP isImageGenCall = 0
    ∧ ((handleCharacterChange 3 ⟨some "IMGDATA", some VoiceName.Charon, some "Done.", true⟩
        defaultWorld.kibo.voice "MUZAN" defaultWorld).2).countP isVoiceInfCall = 0
    ∧ (handleCharacterChange 3 ⟨some "IMGDATA", some VoiceName.Charon, some "Done.", true⟩
        defaultWorld.kibo.voice "a wise old dragon" defaultWorld).1.kibo.avatarStyle
        = AvatarStyle.GENERATED
    ∧ (handleCharacterChange 3 ⟨some "IMGDATA", some VoiceName.Charon, some "Done.", true⟩
        defaultWorld.kibo.voice "a wise old dragon" defaultWorld).1.kibo.generatedAvatarUrl
        = some "IMGDATA"
    ∧ ((handleCharacterChange 3 ⟨some "IMGDATA", some VoiceName.Charon, some "Done.", true⟩
        defaultWorld.kibo.voice "a wise old dragon" defaultWorld).2).countP
        isImageGenCall = 1
    ∧ ((handleCharacterChange 3 ⟨some "IMGDATA", some VoiceName.Charon, some "Done.", true⟩
        defaultWorld.kibo.voice "a wise old dragon" defaultWorld).2).countP
        isVoiceInfCall = 1 :=
  C4_preset_vs_generated defaultWorld 3
    ⟨some "IMGDATA", some VoiceName.Charon, some "Done.", true⟩ "Done." "IMGDATA" rfl rfl

/-- C8 counterexample: a failure of the voice-inference AI call
(`voiceCallResult = none`) does NOT abort the transformation: the service
falls back to the default voice Puck and the transformation completes,
changing the persona, contrary to the claim that any step's failure leaves
the prior persona unchanged. -/
theorem C8_counterexample :
    (handleCharacterChange 0 ⟨some "IMGDATA", none, some "Rawr.", true⟩ VoiceName.Puck
        "a wise old dragon" defaultWorld).1.kibo.avatarStyle = AvatarStyle.GENERATED
    ∧ (handleCharacterChange 0 ⟨some "IMGDATA", none, some "Rawr.", true⟩ VoiceName.Puck
        "a wise old dragon" defaultWorld).1.kibo.currentCharacterName
        = some "a wise old dragon"
    ∧ (handleCharacterChange 0 ⟨some "IMGDATA", none, some "Rawr.", true⟩ VoiceName.Puck
        "a wise old dragon" defaultWorld).1.kibo.voice = VoiceName.Puck
    ∧ defaultWorld.kibo.avatarStyle = AvatarStyle.ABSTRACT
    ∧ defaultWorld.kibo.currentCharacterName = none := by
  decide

/-- C8 (amended): when avatar generation fails (for an unmatched name) or the
in-character confirmation call fails, the transformation aborts: the five
persona fields are unchanged, loading and status are reset, and an apology is
appended and spoken sadly in the previous voice.  (A voice-inference failure
does not abort: it falls back to the voice Puck and the transformation
proceeds — see the counterexample.) -/
theorem C8_failure_aborts (w : World) (gen : Nat) (co : CharOracle) (name : String)
    (hact : w.kibo.isKiboActive = true) (htts : co.ttsOk = true)
    (hfail : (presetMap (normalizeCharacterName name) = none ∧ co.avatarResult = none)
      ∨ co.confirmationResult = none) :
    (handleCharacterChange gen co w.kibo.voice name w).1.kibo.avatarStyle
        = w.kibo.avatarStyle
    ∧ (handleCharacterChange gen co w.kibo.voice name w).1.kibo.voice = w.kibo.voice
    ∧ (handleCharacterChange gen co w.kibo.voice name w).1.kibo.generatedAvatarUrl
        = w.kibo.generatedAvatarUrl
    ∧ (handleCharacterChange gen co w.kibo.voice name w).1.kibo.currentCharacterName
        = w.kibo.currentCharacterName
    ∧ (handleCharacterChange gen co w.kibo.voice name w).1.kibo.language = w.kibo.language
    ∧ (handleCharacterChange gen co w.kibo.voice name w).1.kibo.isLoading = false
    ∧ (handleCharacterChange gen co w.kibo.voice name w).1.kibo.status = KiboStatus.IDLE
    ∧ Event.spoke (transformErrMsg name) Mood.SAD w.kibo.voice
        ∈ (handleCharacterChange gen co w.kibo.voice name w).2 := by
  rw [show co = { co with ttsOk := true } from by rw [← htts]] at *
  unfold handleCharacterChange
  cases hp : presetMap (normalizeCharacterName name) with
  | none =>
      cases hav : co.avatarResult with
      | none =>
          simp only [hp, hav]
          refine ⟨?_, ?_, ?_, ?_, ?_, ?_, ?_, ?_⟩ <;>
            solve
              | simp [charCatch_avatarStyle, charCatch_voice, charCatch_genUrl,
                  charCatch_charName, charCatch_language, charCatch_isLoading,
                  charCatch_status, speak_avatarStyle, speak_voice, speak_genUrl,
                  speak_charName, speak_language, addMessage_avatarStyle,
                  addMessage_voice, addMessage_genUrl, addMessage_charName,
                  addMessage_language, setLoadingThinking]
              | (simp only [List.mem_append]
                 repeat' first
                   | exact charCatch_spoke _ _ _ _ (by
                       simp [speak_active, addMessage_active, setLoadingThinking, hact])
                   | right)
      | some av =>
          have hconf : co.confirmationResult = none := by
            rcases hfail with ⟨_, h2⟩ | h2
            · rw [hav] at h2
              cases h2
            · exact h2
          simp only [hp, hav]
          unfold charFinish
          simp only [hconf]
          refine ⟨?_, ?_, ?_, ?_, ?_, ?_, ?_, ?_⟩ <;>
            solve
              | simp [charCatch_avatarStyle, charCatch_voice, charCatch_genUrl,
                  charCatch_charName, charCatch_language, charCatch_isLoading,
                  charCatch_status, speak_avatarStyle, speak_voice, speak_genUrl,
                  speak_charName, speak_language, addMessage_avatarStyle,
                  addMessage_voice, addMessage_genUrl, addMessage_charName,
                  addMessage_language, setLoadingThinking]
              | (simp only [List.mem_append]
                 repeat' first
                   | exact charCatch_spoke _ _ _ _ (by
                       simp [speak_active, addMessage_active, setLoadingThinking, hact])
                   | right)
  | some st =>
      have hconf : co.confirmationResult = none := by
        rcases hfail with ⟨h1, _⟩ | h2
        · rw [hp] at h1
          cases h1
        · exact h2
      simp only [hp]
      unfold charFinish
      simp only [hconf]
      refine ⟨?_, ?_, ?_, ?_, ?_, ?_, ?_, ?_⟩ <;>
        solve
          | simp [charCatch_avatarStyle, charCatch_voice, charCatch_genUrl,
              charCatch_charName, charCatch_language, charCatch_isLoading,
              charCatch_status, speak_avatarStyle, speak_voice, speak_genUrl,
              speak_charName, speak_language, addMessage_avatarStyle, addMessage_voice,
              addMessage_genUrl, addMessage_charName, addMessage_language,
              setLoadingThinking]
          | (simp only [List.mem_append]
             repeat' first
               | exact charCatch_spoke _ _ _ _ (by
                   simp [speak_active, addMessage_active, setLoadingThinking, hact])
               | right)

/-- C8 witness: the amended statement at a concrete failing oracle. -/
theorem C8_witness :
    (handleCharacterChange 0 ⟨none, none, some "hi", true⟩ defaultWorld.kibo.voice
        "a wise old dragon" defaultWorld).1.kibo.avatarStyle
        = defaultWorld.kibo.avatarStyle
    ∧ (handleCharacterChange 0 ⟨none, none, some "hi", true⟩ defaultWorld.kibo.voice
        "a wise old dragon" defaultWorld).1.kibo.voice = defaultWorld.kibo.voice
    ∧ (handleCharacterChange 0 ⟨none, none, some "hi", true⟩ defaultWorld.kibo.voice
        "a wise old dragon" defaultWorld).1.kibo.generatedAvatarUrl
        = defaultWorld.kibo.generatedAvatarUrl
    ∧ (handleCharacterChange 0 ⟨none, none, some "hi", true⟩ defaultWorld.kibo.voice
        "a wise old dragon" defaultWorld).1.kibo.currentCharacterName
        = defaultWorld.kibo.currentCharacterName
    ∧ (handleCharacterChange 0 ⟨none, none, some "hi", true⟩ defaultWorld.kibo.voice
        "a wise old dragon" defaultWorld).1.kibo.language = defaultWorld.kibo.language
    ∧ (handleCharacterChange 0 ⟨none, none, some "hi", true⟩ defaultWorld.kibo.voice
        "a wise old dragon" defaultWorld).1.kibo.isLoading = false
    ∧ (handleCharacterChange 0 ⟨none, none, some "hi", true⟩ defaultWorld.kibo.voice
        "a wise old dragon" defaultWorld).1.kibo.status = KiboStatus.IDLE
    ∧ Event.spoke (transformErrMsg "a wise old dragon") Mood.SAD defaultWorld.kibo.voice
        ∈ (handleCharacterChange 0 ⟨none, none, some "hi", true⟩ defaultWorld.kibo.voice
            "a wise old dragon" defaultWorld).2 :=
  C8_failure_aborts defaultWorld 0 ⟨none, none, some "hi", true⟩ "a wise old dragon"
    rfl rfl (Or.inl ⟨by decide, rfl⟩)

/-- C3 witness: the amended statement at the concrete reserved command. -/
theorem C3_witness :
    ((handleSendMessage
        ⟨some "OPTIMIZE_PROMPT::be brief", "", none, 111, 0,
          ⟨Mood.HAPPY, some "NEW PROMPT", none, none, none, none, true⟩,
          ⟨none, none, none, true⟩⟩ defaultWorld).1.kibo.moodHistory
        = defaultWorld.kibo.moodHistory ++ [⟨Mood.HAPPY, 111⟩])
    ∧ (((handleSendMessage
        ⟨some "OPTIMIZE_PROMPT::be brief", "", none, 111, 0,
          ⟨Mood.HAPPY, some "NEW PROMPT", none, none, none, none, true⟩,
          ⟨none, none, none, true⟩⟩ defaultWorld).2).countP isRoutedCapCall = 0)
    ∧ (handleSendMessage
        ⟨some "OPTIMIZE_PROMPT::be brief", "", none, 111, 0,
          ⟨Mood.HAPPY, some "NEW PROMPT", none, none, none, none, true⟩,
          ⟨none, none, none, true⟩⟩ defaultWorld).1.kibo.messages.length
        = defaultWorld.kibo.messages.length + 2
    ∧ ((handleSendMessage
        ⟨some "OPTIMIZE_PROMPT::be brief", "", none, 111, 0,
          ⟨Mood.HAPPY, some "NEW PROMPT", none, none, none, none, true⟩,
          ⟨none, none, none, true⟩⟩ defaultWorld).1.kibo.messages.drop
          defaultWorld.kibo.messages.length).all (fun m => m.role == Role.MODEL) = true :=
  C3_reserved_command_behaviour _ _ "NEW PROMPT" (by decide) (by decide) rfl

/-- Whether an event is an error-kind notification. -/
def isErrorNotify : Event → Bool
  | .notify n => n.kind == NotificationKind.error
  | _ => false

/-- Whether the AI capability call the dispatch pipeline routes this input to
rejects, mirroring the pipeline's own routing order. -/
def takenCallFails (a : DispatchArgs) : Bool :=
  let mt := messageTextOf a.text a.chatInputVal
  if jsStartsWith mt optimizeMarker then a.o.optimizePromptResult.isNone
  else if (fileImageData a.file).isSome then a.o.textFromImageResult.isNone
  else if (fileTextContent a.file).isSome then a.o.summarizeTextResult.isNone
  else if isWebQuery mt then a.o.webKnowledgeResult.isNone
  else a.o.conversationalResult.isNone

theorem dispatchPrelude_active (a : DispatchArgs) (mt : String) (w : World) :
    (dispatchPrelude a mt w).1.kibo.isKiboActive = w.kibo.isKiboActive := by
  unfold dispatchPrelude
  split <;> simp [addMessage_active, triggerReaction_active, setLoadingThinking]

theorem dispatchPrelude_count_error (a : DispatchArgs) (mt : String) (w : World) :
    ((dispatchPrelude a mt w).2).countP isErrorNotify = 0 := by
  unfold dispatchPrelude triggerReaction
  split <;> simp [List.countP_append, List.countP_cons, isErrorNotify]

theorem dispatchCatch_package (g : Nat) (v : VoiceName) (w : World)
    (hact : w.kibo.isKiboActive = true) :
    ((dispatchCatch g true v w).2).countP isErrorNotify = 1
    ∧ Event.spoke dispatchErrMsg Mood.SAD v ∈ (dispatchCatch g true v w).2
    ∧ Event.reacted Reaction.SURPRISED ∈ (dispatchCatch g true v w).2
    ∧ ∃ m, (dispatchCatch g true v w).1.kibo.messages = w.kibo.messages ++ [m]
        ∧ m.role = Role.MODEL ∧ m.parts = [MessagePart.text dispatchErrMsg] := by
  unfold dispatchCatch speak notifyW triggerReaction
  simp [addMessage_active, hact, addMessage, List.countP_cons, isErrorNotify,
    dispatchErrMsg]

/-- C5: a dispatch whose routed AI capability call rejects (whichever branch
the input takes) still ends with isLoading false and status Idle, emits
exactly one error notification, appends exactly one apology Model message as
the last message, speaks it with the sad mood in the session's voice, and
triggers the surprised reaction. -/
theorem C5_dispatch_error_path (a : DispatchArgs) (w : World)
    (hguard : dispatchGuard a = true)
    (hact : w.kibo.isKiboActive = true)
    (htts : a.o.ttsOk = true)
    (hfail : takenCallFails a = true) :
    (handleSendMessage a w).1.kibo.isLoading = false
    ∧ (handleSendMessage a w).1.kibo.status = KiboStatus.IDLE
    ∧ ((handleSendMessage a w).2).countP isErrorNotify = 1
    ∧ Event.spoke dispatchErrMsg Mood.SAD w.kibo.voice ∈ (handleSendMessage a w).2
    ∧ Event.reacted Reaction.SURPRISED ∈ (handleSendMessage a w).2
    ∧ ∃ pre m, (handleSendMessage a w).1.kibo.messages = pre ++ [m]
        ∧ m.role = Role.MODEL ∧ m.parts = [MessagePart.text dispatchErrMsg] := by
  have hguard' : (jsTrim (messageTextOf a.text a.chatInputVal) = ""
      && a.file.isNone) = false := by
    unfold dispatchGuard at hguard
    rwa [Bool.not_eq_true'] at hguard
  have hactPre : (dispatchPrelude a (messageTextOf a.text a.chatInputVal) w).1.kibo.isKiboActive
      = true := by rw [dispatchPrelude_active]; exact hact
  have hpkg := fun g => dispatchCatch_package g w.kibo.voice
    (dispatchPrelude a (messageTextOf a.text a.chatInputVal) w).1 hactPre
  unfold takenCallFails at hfail
  unfold handleSendMessage
  simp only [hguard', Bool.false_eq_true, if_false]
  unfold dispatchBody
  by_cases h1 : jsStartsWith (messageTextOf a.text a.chatInputVal) optimizeMarker = true
  · simp only [h1, if_true] at hfail ⊢
    rw [Option.isNone_iff_eq_none] at hfail
    simp only [hfail]
    rw [htts]
    obtain ⟨hc1, hc2, hc3, m, hm, hr, hp⟩ := hpkg (a.gen + 3)
    refine ⟨by simp [finallyReset], by simp [finallyReset], ?_, ?_, ?_, ?_⟩
    · simp [List.countP_append, List.countP_cons, dispatchPrelude_count_error,
        isErrorNotify, hc1]
    · simp [hc2]
    · simp [hc3]
    · exact ⟨(dispatchPrelude a (messageTextOf a.text a.chatInputVal) w).1.kibo.messages, m,
        by simp [finallyReset, hm], hr, hp⟩
  · simp only [h1, Bool.false_eq_true, if_false] at hfail ⊢
    by_cases h2 : (fileImageData a.file).isSome = true
    · obtain ⟨img, himg⟩ := Option.isSome_iff_exists.mp h2
      simp only [h2, if_true] at hfail
      rw [Option.isNone_iff_eq_none] at hfail
      simp only [himg, hfail]
      rw [htts]
      obtain ⟨hc1, hc2, hc3, m, hm, hr, hp⟩ := hpkg (a.gen + 3)
      refine ⟨by simp [finallyReset], by simp [finallyReset], ?_, ?_, ?_, ?_⟩
      · simp [List.countP_append, List.countP_cons, dispatchPrelude_count_error,
          isErrorNotify, hc1]
      · simp [hc2]
      · simp [hc3]
      · exact ⟨(dispatchPrelude a (messageTextOf a.text a.chatInputVal) w).1.kibo.messages, m,
        by simp [finallyReset, hm], hr, hp⟩
    · have himg : fileImageData a.file = none := by
        revert h2
        cases fileImageData a.file <;> simp
      simp only [h2, Bool.false_eq_true, if_false] at hfail
      simp only [himg]
      by_cases h3 : (fileTextContent a.file).isSome = true
      · obtain ⟨txt, htxt⟩ := Option.isSome_iff_exists.mp h3
        simp only [h3, if_true] at hfail
        rw [Option.isNone_iff_eq_none] at hfail
        simp only [htxt, hfail]
        rw [htts]
        obtain ⟨hc1, hc2, hc3, m, hm, hr, hp⟩ := hpkg (a.gen + 3)
        refine ⟨by simp [finallyReset], by simp [finallyReset], ?_, ?_, ?_, ?_⟩
        · simp [List.countP_append, List.countP_cons, dispatchPrelude_count_error,
            isErrorNotify, hc1]
        · simp [hc2]
        · simp [hc3]
        · exact ⟨(dispatchPrelude a (messageTextOf a.text a.chatInputVal) w).1.kibo.messages, m,
        by simp [finallyReset, hm], hr, hp⟩
      · have htxt : fileTextContent a.file = none := by
          revert h3
          cases fileTextContent a.file <;> simp
        simp only [h3, Bool.false_eq_true, if_false] at hfail
        simp only [htxt]
        by_cases h4 : isWebQuery (messageTextOf a.text a.chatInputVal) = true
        · simp only [h4, if_true] at hfail ⊢
          rw [Option.isNone_iff_eq_none] at hfail
          simp only [hfail]
          rw [htts]
          obtain ⟨hc1, hc2, hc3, m, hm, hr, hp⟩ := hpkg (a.gen + 3)
          refine ⟨by simp [finallyReset], by simp [finallyReset], ?_, ?_, ?_, ?_⟩
          · simp [List.countP_append, List.countP_cons, dispatchPrelude_count_error,
              isErrorNotify, hc1]
          · simp [hc2]
          · simp [hc3]
          · exact ⟨(dispatchPrelude a (messageTextOf a.text a.chatInputVal) w).1.kibo.messages, m,
        by simp [finallyReset, hm], hr, hp⟩
        · simp only [h4, Bool.false_eq_true, if_false] at hfail ⊢
          rw [Option.isNone_iff_eq_none] at hfail
          simp only [hfail]
          rw [htts]
          obtain ⟨hc1, hc2, hc3, m, hm, hr, hp⟩ := hpkg (a.gen + 3)
          refine ⟨by simp [finallyReset], by simp [finallyReset], ?_, ?_, ?_, ?_⟩
          · simp [List.countP_append, List.countP_cons, dispatchPrelude_count_error,
              isErrorNotify, hc1]
          · simp [hc2]
          · simp [hc3]
          · exact ⟨(dispatchPrelude a (messageTextOf a.text a.chatInputVal) w).1.kibo.messages, m,
        by simp [finallyReset, hm], hr, hp⟩

/-- C5 witness: the statement at a concrete failing conversational dispatch. -/
theorem C5_witness :
    (handleSendMessage
        ⟨some "hello there", "", none, 50, 0,
          ⟨Mood.NEUTRAL, none, none, none, none, none, true⟩,
          ⟨none, none, none, true⟩⟩ defaultWorld).1.kibo.isLoading = false
    ∧ (handleSendMessage
        ⟨some "hello there", "", none, 50, 0,
          ⟨Mood.NEUTRAL, none, none, none, none, none, true⟩,
          ⟨none, none, none, true⟩⟩ defaultWorld).1.kibo.status = KiboStatus.IDLE
    ∧ ((handleSendMessage
        ⟨some "hello there", "", none, 50, 0,
          ⟨Mood.NEUTRAL, none, none, none, none, none, true⟩,
          ⟨none, none, none, true⟩⟩ defaultWorld).2).countP isErrorNotify = 1
    ∧ Event.spoke dispatchErrMsg Mood.SAD defaultWorld.kibo.voice
        ∈ (handleSendMessage
        ⟨some "hello there", "", none, 50, 0,
          ⟨Mood.NEUTRAL, none, none, none, none, none, true⟩,
          ⟨none, none, none, true⟩⟩ defaultWorld).2
    ∧ Event.reacted Reaction.SURPRISED ∈ (handleSendMessage
        ⟨some "hello there", "", none, 50, 0,
          ⟨Mood.NEUTRAL, none, none, none, none, none, true⟩,
          ⟨none, none, none, true⟩⟩ defaultWorld).2
    ∧ ∃ pre m, (handleSendMessage
        ⟨some "hello there", "", none, 50, 0,
          ⟨Mood.NEUTRAL, none, none, none, none, none, true⟩,
          ⟨none, none, none, true⟩⟩ defaultWorld).1.kibo.messages = pre ++ [m]
        ∧ m.role = Role.MODEL ∧ m.parts = [MessagePart.text dispatchErrMsg] :=
  C5_dispatch_error_path _ defaultWorld (by decide) rfl rfl (by decide)

/-- C7: for a file-less, non-reserved dispatch, a text matching the URL
pattern or starting (case-insensitively) with a web keyword routes to the
web-knowledge capability and the appended Model message carries the returned
sources; the same text with no keyword and no URL routes to the
conversational capability with the last 5 messages (of the captured
pre-dispatch transcript) as context. -/
theorem C7_web_vs_conversational (a : DispatchArgs) (w : World)
    (hfile : a.file = none)
    (hnopt : jsStartsWith (messageTextOf a.text a.chatInputVal) optimizeMarker = false)
    (hguard : dispatchGuard a = true) :
    (∀ t srcs, isWebQuery (messageTextOf a.text a.chatInputVal) = true →
      a.o.webKnowledgeResult = some (t, srcs) →
      Event.capCall (CapCall.getWebKnowledge
          (if urlTest (messageTextOf a.text a.chatInputVal) then
            "Please summarize this webpage for me: " ++ messageTextOf a.text a.chatInputVal
          else messageTextOf a.text a.chatInputVal)) ∈ (handleSendMessage a w).2
      ∧ ∃ m, (handleSendMessage a w).1.kibo.messages.getLast? = some m
          ∧ m.role = Role.MODEL ∧ m.sources = some srcs)
    ∧ (isWebQuery (messageTextOf a.text a.chatInputVal) = false →
        Event.capCall (CapCall.getConversationalResponse (sliceLast 5 w.kibo.messages)
          (messageTextOf a.text a.chatInputVal)) ∈ (handleSendMessage a w).2) := by
  have hguard' : (jsTrim (messageTextOf a.text a.chatInputVal) = ""
      && a.file.isNone) = false := by
    unfold dispatchGuard at hguard
    rwa [Bool.not_eq_true'] at hguard
  constructor
  · intro t srcs hweb hres
    unfold handleSendMessage
    simp only [hguard', Bool.false_eq_true, if_false]
    unfold dispatchBody
    simp only [hnopt, Bool.false_eq_true, if_false, hfile, fileImageData, fileTextContent,
      hweb, if_true, hres]
    constructor
    · simp
    · refine ⟨⟨Role.MODEL, (if t = "" then [] else [MessagePart.text t]) ++ [],
        mkId (a.gen + 1), some srcs⟩, ?_, rfl, rfl⟩
      simp [finallyReset, speak_messages, addMessage, List.getLast?_concat]
  · intro hweb
    unfold handleSendMessage
    simp only [hguard', Bool.false_eq_true, if_false]
    unfold dispatchBody
    simp only [hnopt, Bool.false_eq_true, if_false, hfile, fileImageData, fileTextContent,
      hweb]
    cases hres : a.o.conversationalResult with
    | none => simp [hres]
    | some tf =>
        simp only [hres]
        by_cases hz : tf.1 = "" <;> simp [hz]

/-- C7 witness: both routes at concrete inputs ("what is entropy" with and
without its keyword phrase). -/
theorem C7_witness :
    (Event.capCall (CapCall.getWebKnowledge "what is entropy")
        ∈ (handleSendMessage
          ⟨some "what is entropy", "", none, 60, 0,
            ⟨Mood.NEUTRAL, none, none, none, some ("Entropy is...", [⟨"https://e.org", "E"⟩]),
              none, true⟩, ⟨none, none, none, true⟩⟩ defaultWorld).2
      ∧ ∃ m, (handleSendMessage
          ⟨some "what is entropy", "", none, 60, 0,
            ⟨Mood.NEUTRAL, none, none, none, some ("Entropy is...", [⟨"https://e.org", "E"⟩]),
              none, true⟩, ⟨none, none, none, true⟩⟩ defaultWorld).1.kibo.messages.getLast?
          = some m ∧ m.role = Role.MODEL ∧ m.sources = some [⟨"https://e.org", "E"⟩])
    ∧ Event.capCall (CapCall.getConversationalResponse
        (sliceLast 5 defaultWorld.kibo.messages) "entropy is neat")
        ∈ (handleSendMessage
          ⟨some "entropy is neat", "", none, 61, 0,
            ⟨Mood.NEUTRAL, none, none, none, none, some ("Indeed.", []), true⟩,
            ⟨none, none, none, true⟩⟩ defaultWorld).2 := by
  constructor
  · have h := (C7_web_vs_conversational
      ⟨some "what is entropy", "", none, 60, 0,
        ⟨Mood.NEUTRAL, none, none, none, some ("Entropy is...", [⟨"https://e.org", "E"⟩]),
          none, true⟩, ⟨none, none, none, true⟩⟩ defaultWorld rfl (by decide) (by decide)).1
      "Entropy is..." [⟨"https://e.org", "E"⟩] (by decide) rfl
    simpa using h
  · exact (C7_web_vs_conversational
      ⟨some "entropy is neat", "", none, 61, 0,
        ⟨Mood.NEUTRAL, none, none, none, none, some ("Indeed.", []), true⟩,
        ⟨none, none, none, true⟩⟩ defaultWorld rfl (by decide) (by decide)).2 (by decide)

theorem dispatchPrelude_reminders (a : DispatchArgs) (mt : String) (w : World) :
    (dispatchPrelude a mt w).1.kibo.reminders = w.kibo.reminders := by
  unfold dispatchPrelude
  split <;> simp [addMessage_reminders, triggerReaction_reminders, setLoadingThinking]

/-- Whether an event is a reminder-kind notification. -/
def isReminderNotifyEvt : Event → Bool
  | .notify n => n.kind == NotificationKind.reminder
  | _ => false

theorem speak_no_reminderNotify (v : VoiceName) (t : Bool) (s : String) (m : Mood)
    (w : World) :
    ((speak v t s m w).2).filter isReminderNotifyEvt = [] := by
  unfold speak
  split <;> [rfl; (split <;> simp [isReminderNotifyEvt, ttsFailNotif])]

theorem pollLoop_notifies (v : VoiceName) (t : Bool) (rs : List Reminder) (w : World) :
    ((pollLoop v t rs w).2).filter isReminderNotifyEvt
      = rs.map (fun r => Event.notify ⟨"Reminder: " ++ r.task, NotificationKind.reminder⟩) := by
  induction rs generalizing w with
  | nil => rfl
  | cons r rest ih =>
      unfold pollLoop notifyW
      simp [List.filter_append, speak_no_reminderNotify, ih, isReminderNotifyEvt]

/-- C6: a setReminder directive with delaySeconds = 600 applied at time `now`
appends exactly one Reminder due at now + 600 seconds (600000 ms), incomplete
and with the freshly drawn id — uniqueness of ids is preserved whenever the
fresh draw is unused; and a reminder-checker tick on an active assistant
emits exactly one reminder notification for each incomplete past-due
reminder, in list order — none for completed ones — and toggling a
reminder's completion removes it from the due set of later ticks. -/
theorem C6_set_reminder_and_poll (a : DispatchArgs) (w : World) (txt task : String)
    (hfile : a.file = none)
    (hnopt : jsStartsWith (messageTextOf a.text a.chatInputVal) optimizeMarker = false)
    (hnweb : isWebQuery (messageTextOf a.text a.chatInputVal) = false)
    (hguard : dispatchGuard a = true)
    (htask : task ≠ "")
    (hconv : a.o.conversationalResult = some (txt, [FnCall.setReminderCall task 600])) :
    (handleSendMessage a w).1.kibo.reminders
        = w.kibo.reminders ++ [⟨mkId (a.gen + 1), task, a.now + 600 * 1000, false, none⟩]
    ∧ (mkId (a.gen + 1) ∉ w.kibo.reminders.map Reminder.id →
        (w.kibo.reminders.map Reminder.id).Nodup →
        ((handleSendMessage a w).1.kibo.reminders.map Reminder.id).Nodup)
    ∧ (∀ (w' : World) (nowPoll : Nat) (tts : Bool), w'.kibo.isKiboActive = true →
        ((handleReminderPoll nowPoll tts w').2).filter isReminderNotifyEvt
          = (w'.kibo.reminders.filter (dueIncomplete nowPoll)).map
              (fun r => Event.notify ⟨"Reminder: " ++ r.task, NotificationKind.reminder⟩))
    ∧ (∀ (w' : World) (now2 : Nat) (r : Reminder), r ∈ w'.kibo.reminders →
        r.completed = false →
        { r with completed := true, completedAt := some now2 }
          ∈ (handleToggleReminderComplete r.id now2 w').kibo.reminders)
    ∧ (∀ (r : Reminder) (now2 now3 : Nat),
        dueIncomplete now3 { r with completed := true, completedAt := some now2 }
          = false) := by
  have hguard' : (jsTrim (messageTextOf a.text a.chatInputVal) = ""
      && a.file.isNone) = false := by
    unfold dispatchGuard at hguard
    rwa [Bool.not_eq_true'] at hguard
  have hrem : (handleSendMessage a w).1.kibo.reminders
      = w.kibo.reminders ++ [⟨mkId (a.gen + 1), task, a.now + 600 * 1000, false, none⟩] := by
    unfold handleSendMessage
    simp only [hguard', Bool.false_eq_true, if_false]
    unfold dispatchBody
    simp only [hnopt, Bool.false_eq_true, if_false, hfile, fileImageData, fileTextContent,
      hnweb, hconv]
    unfold applyCalls applyCalls applyCall FnCall.setReminderCall truthyS truthyN
    simp only []
    unfold addReminder notifyW
    by_cases hz : txt = "" <;>
      simp [hz, htask, finallyReset, speak_reminders, addMessage_reminders,
        triggerReaction_reminders, dispatchPrelude_reminders]
  refine ⟨hrem, ?_, ?_, ?_, ?_⟩
  · intro hfresh hnodup
    rw [hrem]
    simp [List.nodup_append, hnodup, hfresh]
  · intro w' nowPoll tts hact
    unfold handleReminderPoll
    simp [hact, pollLoop_notifies]
  · intro w' now2 r hmem hincomp
    unfold handleToggleReminderComplete
    simp only []
    refine List.mem_map.mpr ⟨r, hmem, ?_⟩
    simp [hincomp]
  · intro r now2 now3
    unfold dueIncomplete
    simp

/-- C6 witness: the statement at a concrete dispatch carrying the directive. -/
theorem C6_witness :
    (handleSendMessage
        ⟨some "remind me to stretch in ten minutes", "", none, 1000, 7,
          ⟨Mood.NEUTRAL, none, none, none, none,
            some ("Will do!", [FnCall.setReminderCall "stretch" 600]), true⟩,
          ⟨none, none, none, true⟩⟩ defaultWorld).1.kibo.reminders
        = defaultWorld.kibo.reminders
          ++ [⟨mkId 8, "stretch", 1000 + 600 * 1000, false, none⟩]
    ∧ (mkId 8 ∉ defaultWorld.kibo.reminders.map Reminder.id →
        (defaultWorld.kibo.reminders.map Reminder.id).Nodup →
        ((handleSendMessage
          ⟨some "remind me to stretch in ten minutes", "", none, 1000, 7,
            ⟨Mood.NEUTRAL, none, none, none, none,
              some ("Will do!", [FnCall.setReminderCall "stretch" 600]), true⟩,
            ⟨none, none, none, true⟩⟩ defaultWorld).1.kibo.reminders.map Reminder.id).Nodup)
    ∧ (∀ (w' : World) (nowPoll : Nat) (tts : Bool), w'.kibo.isKiboActive = true →
        ((handleReminderPoll nowPoll tts w').2).filter isReminderNotifyEvt
          = (w'.kibo.reminders.filter (dueIncomplete nowPoll)).map
              (fun r => Event.notify ⟨"Reminder: " ++ r.task, NotificationKind.reminder⟩))
    ∧ (∀ (w' : World) (now2 : Nat) (r : Reminder), r ∈ w'.kibo.reminders →
        r.completed = false →
        { r with completed := true, completedAt := some now2 }
          ∈ (handleToggleReminderComplete r.id now2 w').kibo.reminders)
    ∧ (∀ (r : Reminder) (now2 now3 : Nat),
        dueIncomplete now3 { r with completed := true, completedAt := some now2 }
          = false) :=
  C6_set_reminder_and_poll _ defaultWorld "Will do!" "stretch" rfl (by decide) (by decide)
    (by decide) (by decide) rfl

/-- C9: moodHistory is append-only — every operation's result extends the
previous moodHistory — and N guarded dispatches append exactly their N
detected moods in call order. -/
theorem C9_mood_history_append_only :
    (∀ (op : Op) (w : World), ∃ t, (stepOp op w).1.kibo.moodHistory
        = w.kibo.moodHistory ++ t)
    ∧ ∀ (args : List DispatchArgs) (w : World), (∀ a ∈ args, dispatchGuard a = true) →
        (runOps (args.map Op.sendMessage) w).kibo.moodHistory
          = w.kibo.moodHistory
            ++ args.map (fun a => MoodEntry.mk a.o.detectMoodResult a.now) := by
  constructor
  · exact fun op w => stepOp_moodAppends op w
  · intro args
    induction args with
    | nil =>
        intro w _
        simp [runOps]
    | cons a rest ih =>
        intro w h
        have hstep : runOps ((a :: rest).map Op.sendMessage) w
            = runOps (rest.map Op.sendMessage) (handleSendMessage a w).1 := rfl
        rw [hstep, ih _ (fun x hx => h x (List.mem_cons_of_mem a hx)),
          handleSendMessage_mh _ _ (h a (List.mem_cons_self a rest))]
        simp

/-- C9 witness: the statement at a concrete operation and a concrete
one-dispatch run. -/
theorem C9_witness :
    (∃ t, (stepOp Op.toggleKiboActive defaultWorld).1.kibo.moodHistory
        = defaultWorld.kibo.moodHistory ++ t)
    ∧ (runOps ([⟨some "hi there", "", none, 5, 0,
          ⟨Mood.HAPPY, none, none, none, none, some ("Hello!", []), true⟩,
          ⟨none, none, none, true⟩⟩].map Op.sendMessage) defaultWorld).kibo.moodHistory
        = defaultWorld.kibo.moodHistory ++ [MoodEntry.mk Mood.HAPPY 5] :=
  ⟨C9_mood_history_append_only.1 Op.toggleKiboActive defaultWorld,
    C9_mood_history_append_only.2
      [⟨some "hi there", "", none, 5, 0,
        ⟨Mood.HAPPY, none, none, none, none, some ("Hello!", []), true⟩,
        ⟨none, none, none, true⟩⟩] defaultWorld (by decide)⟩

theorem mapGet_mem {rs : List Reminder} {id : String} {r : Reminder}
    (h : mapGet rs id = some r) : r ∈ rs :=
  List.mem_reverse.mp (List.mem_of_find?_eq_some h)

theorem mapGet_id {rs : List Reminder} {id : String} {r : Reminder}
    (h : mapGet rs id = some r) : r.id = id := by
  have := List.find?_some h
  simpa using this

/-- The concrete reminder list for the C10 counterexample: two incomplete
tasks and one completed one. -/
def c10World : World :=
  { defaultWorld with kibo := { defaultWorld.kibo with reminders :=
      [⟨"r1", "task one", 0, false, none⟩,
       ⟨"r2", "task two", 0, false, none⟩,
       ⟨"r3", "task three", 0, true, some 5⟩] } }

/-- C10 counterexample: when the AI-returned ordering names a completed
reminder's id ("r3"), that completed reminder is resolved into the front
segment AND retained in the completed tail, duplicating it — the result is
[r3, r1, r3], not the claimed "incomplete reminders in order followed by the
completed ones" ([r1, r3]). -/
theorem C10_counterexample :
    ((handlePrioritizeTasks 9 (some ["r3", "r1"]) true c10World).1.kibo.reminders.map
        Reminder.id = ["r3", "r1", "r3"])
    ∧ ¬ ((handlePrioritizeTasks 9 (some ["r3", "r1"]) true c10World).1.kibo.reminders.map
        Reminder.id = ["r1", "r3"]) := by
  decide

/-- C10 (amended): after a successful prioritization (at least two active
reminders), the resulting list is the AI-returned ids resolved in order
against the reminder map followed by all previously-completed reminders;
when every returned id resolves to a previously-incomplete reminder, the
front segment consists exactly of previously-present incomplete reminders
whose ids appear in the ordering; every completed reminder is retained, no
new reminder is introduced, and an incomplete reminder whose id is absent
from the ordering is dropped.  (A returned id of a completed reminder
duplicates it — see the counterexample.) -/
theorem C10_prioritize_shape (w : World) (gen : Nat) (orderedIds : List String) (t : Bool)
    (h2 : 2 ≤ (w.kibo.reminders.filter (fun r => !r.completed)).length)
    (hids : ∀ id ∈ orderedIds, ∀ r ∈ w.kibo.reminders,
      mapGet w.kibo.reminders id = some r → r.completed = false) :
    (handlePrioritizeTasks gen (some orderedIds) t w).1.kibo.reminders
        = orderedIds.filterMap (mapGet w.kibo.reminders)
          ++ w.kibo.reminders.filter (fun r => r.completed)
    ∧ (∀ r ∈ orderedIds.filterMap (mapGet w.kibo.reminders),
        r ∈ w.kibo.reminders ∧ r.completed = false ∧ r.id ∈ orderedIds)
    ∧ (∀ r ∈ w.kibo.reminders, r.completed = true →
        r ∈ (handlePrioritizeTasks gen (some orderedIds) t w).1.kibo.reminders)
    ∧ (∀ r ∈ w.kibo.reminders, r.completed = false → r.id ∉ orderedIds →
        r ∉ (handlePrioritizeTasks gen (some orderedIds) t w).1.kibo.reminders) := by
  have hg : ¬ ((w.kibo.reminders.filter (fun r => !r.completed)).length < 2) :=
    Nat.not_lt.mpr h2
  have hshape : (handlePrioritizeTasks gen (some orderedIds) t w).1.kibo.reminders
      = orderedIds.filterMap (mapGet w.kibo.reminders)
        ++ w.kibo.reminders.filter (fun r => r.completed) := by
    unfold handlePrioritizeTasks
    simp only []
    rw [if_neg hg]
    simp [finallyReset, speak_reminders, addMessage_reminders, setLoadingThinking]
  have hfront : ∀ r ∈ orderedIds.filterMap (mapGet w.kibo.reminders),
      r ∈ w.kibo.reminders ∧ r.completed = false ∧ r.id ∈ orderedIds := by
    intro r hr
    obtain ⟨id, hid, hmg⟩ := List.mem_filterMap.mp hr
    have hmem := mapGet_mem hmg
    refine ⟨hmem, hids id hid r hmem hmg, ?_⟩
    rw [mapGet_id hmg]
    exact hid
  refine ⟨hshape, hfront, ?_, ?_⟩
  · intro r hr hc
    rw [hshape]
    exact List.mem_append_right _ (List.mem_filter.mpr ⟨hr, by simp [hc]⟩)
  · intro r _ hinc hnot habs
    rw [hshape] at habs
    rcases List.mem_append.mp habs with hin | hin
    · exact hnot (hfront r hin).2.2
    · rw [List.mem_filter] at hin
      rw [hinc] at hin
      simpa using hin.2

/-- C10 witness: the amended statement at a concrete well-behaved ordering. -/
theorem C10_witness :
    (handlePrioritizeTasks 9 (some ["r2", "r1"]) true c10World).1.kibo.reminders
        = ["r2", "r1"].filterMap (mapGet c10World.kibo.reminders)
          ++ c10World.kibo.reminders.filter (fun r => r.completed)
    ∧ (∀ r ∈ ["r2", "r1"].filterMap (mapGet c10World.kibo.reminders),
        r ∈ c10World.kibo.reminders ∧ r.completed = false ∧ r.id ∈ ["r2", "r1"])
    ∧ (∀ r ∈ c10World.kibo.reminders, r.completed = true →
        r ∈ (handlePrioritizeTasks 9 (some ["r2", "r1"]) true c10World).1.kibo.reminders)
    ∧ (∀ r ∈ c10World.kibo.reminders, r.completed = false → r.id ∉ ["r2", "r1"] →
        r ∉ (handlePrioritizeTasks 9 (some ["r2", "r1"]) true c10World).1.kibo.reminders) :=
  C10_prioritize_shape c10World 9 ["r2", "r1"] true (by decide) (by decide)

end Kibo
